import Mathlib

/-!
Shallow embedding of the PCIe interrupt management engine of
`src/kernel/dev/pcie/pcie_irqs.cpp` (magenta kernel).

The per-device IRQ bookkeeping, the MSI capability registers, the platform
IRQ facade and the shared legacy dispatcher are modelled as explicit state
records; each C function of the source becomes a Lean function by explicit
state passing.  Config-space and platform side effects are additionally
recorded in an event trace so that write-ordering properties can be stated.
-/

namespace Pcie

/-- Status codes of `err.h` used by the IRQ control plane. -/
inductive Status where
  | NO_ERROR
  | ERR_INTERNAL
  | ERR_NOT_SUPPORTED
  | ERR_NO_RESOURCES
  | ERR_NO_MEMORY
  | ERR_INVALID_ARGS
  | ERR_BAD_STATE
  deriving DecidableEq, Repr

/-- The `pcie_irq_mode_t` enumeration. -/
inductive PcieIrqMode where
  | DISABLED
  | LEGACY
  | MSI
  | MSI_X
  deriving DecidableEq, Repr

/-- The `handler_return` enumeration of the low-level interrupt handlers. -/
inductive HandlerReturn where
  | INT_NO_RESCHEDULE
  | INT_RESCHEDULE
  deriving DecidableEq, Repr

/-- The `pcie_irq_handler_retval_t` two-bit value: PCIE_IRQRET_MASK and
PCIE_IRQRET_RESCHED. -/
structure IrqRetval where
  mask : Bool
  resched : Bool
  deriving DecidableEq, Repr

/-- One `pcie_irq_handler_state_t` slot.  The driver callback is modelled as
an optional function from the irq id it is invoked with to the retval it
returns (its only observable interaction with this engine). -/
structure pcie_irq_handler_state_t where
  pci_irq_id : Nat := 0
  handler : Option (Nat → IrqRetval) := none
  hasCtx : Bool := false
  masked : Bool := false

/-- The `pcie_msi_block_t` handle obtained from the platform. -/
structure pcie_msi_block_t where
  allocated : Bool := false
  num_irq : Nat := 0
  tgt_addr : Nat := 0
  tgt_data : Nat := 0
  deriving DecidableEq, Repr

/-- Contents of the device's MSI capability registers (control register split
into its ENABLE and MME fields, address, upper address, data). -/
structure MsiCfgRegs where
  enb : Bool := false
  mme : Nat := 0
  addr : Nat := 0
  addr_upper : Nat := 0
  data : Nat := 0
  deriving DecidableEq, Repr

/-- The `irq.msi` portion of the per-device state: capability pointer
presence, 64-bit capability, advertised maximum, PVM mask register (presence
and contents) and the currently held vector block. -/
structure MsiState where
  hasCfg : Bool := false
  is64bit : Bool := false
  max_irqs : Nat := 0
  hasPvm : Bool := false
  pvmMask : Nat := 0
  cfg : MsiCfgRegs := {}
  irq_block : pcie_msi_block_t := {}

/-- The per-device IRQ state (`pcie_device_state_t`, restricted to the fields
the IRQ engine reads and writes).  `handlers = []` models a NULL handler
table; `handler_count` is its length. -/
structure pcie_device_state_t where
  plugged_in : Bool := true
  disabled : Bool := false
  mode : PcieIrqMode := .DISABLED
  handlers : List pcie_irq_handler_state_t := []
  registered_handler_count : Nat := 0
  legacy_pin : Nat := 0
  legacy_inList : Bool := false
  cmd_int_disable : Bool := true
  status_int_sts : Bool := false
  msi : MsiState := {}

/-- The platform IRQ facade environment: capability flags and the outcome the
platform chooses for `AllocMsiBlock` during the call under consideration
(`alloc_res` is its status; `alloc_block` the block it hands over when the
status is `NO_ERROR`). -/
structure Platform where
  supports_msi : Bool := true
  supports_msi_masking : Bool := true
  alloc_res : Status := .NO_ERROR
  alloc_block : pcie_msi_block_t := {}
  deriving DecidableEq, Repr

/-- Observable side effects on config space and the platform, in program
order. -/
inductive Ev where
  | writeEnb (b : Bool)
  | writePvmReg (v : Nat)
  | platMaskMsi (i : Nat) (m : Bool)
  | writeAddr (lo : Nat)
  | writeAddrUpper (hi : Nat)
  | writeData64 (d : Nat)
  | writeData32 (d : Nat)
  | writeMme (v : Nat)
  | regMsiHandler (i : Nat) (installed : Bool)
  | freeBlock
  | invoke (pci_irq_id : Nat)
  deriving DecidableEq, Repr

/-- Whole-system state for the MSI and control-plane paths: the device, the
platform environment, the platform controller's per-vector mask bits and
registered-handler bits for the device's block (indexed by block-relative
vector), the legacy shared dispatcher membership visible to this device, and
the event trace. -/
structure Sys where
  dev : pcie_device_state_t := {}
  plat : Platform := {}
  platMasked : Nat → Bool := fun _ => false
  platHandler : Nat → Bool := fun _ => false
  vectorMasked : Bool := true
  legacyList : List Nat := []
  devId : Nat := 0
  trace : List Ev := []

/-- Append one observable event to the trace. -/
def emit (s : Sys) (e : Ev) : Sys :=
  { s with trace := s.trace ++ [e] }

/-- Slot lookup, `dev->irq.handlers[i]` (callers guarantee the bound). -/
def slotAt (s : Sys) (i : Nat) : pcie_irq_handler_state_t :=
  s.dev.handlers.getD i {}

/-- Slot update at index `i`. -/
def setSlot (s : Sys) (i : Nat) (h : pcie_irq_handler_state_t) : Sys :=
  { s with dev.handlers := s.dev.handlers.set i h }

/-- Source: `pcie_set_msi_enb`.  Read-modify-write of the MSI control
register's ENABLE field (the `PCIE_CAP_MSI_CTRL_SET_ENB` accessor is modelled
from the spec's register description: ENABLE is bit 0 of the control
register). -/
def pcie_set_msi_enb (s : Sys) (enb : Bool) : Sys :=
  emit { s with dev.msi.cfg.enb := enb } (.writeEnb enb)

/-- Source: `pcie_mask_unmask_msi_irq_locked`.  Sets or clears the PVM bit
(when the device has a PVM mask register), calls the platform mask primitive
(when supported), records the previous `masked` flag and updates it.
Returns the previous value of `masked`. -/
def pcie_mask_unmask_msi_irq_locked (s : Sys) (irq_id : Nat) (mask : Bool) :
    Bool × Sys :=
  let s :=
    if s.dev.msi.hasPvm then
      let val := s.dev.msi.pvmMask
      let val := if mask then val ||| (1 <<< irq_id)
                 else val &&& (0xFFFFFFFF ^^^ (1 <<< irq_id))
      emit { s with dev.msi.pvmMask := val } (.writePvmReg val)
    else s
  let s :=
    if s.plat.supports_msi_masking then
      emit { s with platMasked := fun j => if j = irq_id then mask else s.platMasked j }
        (.platMaskMsi irq_id mask)
    else s
  let h := slotAt s irq_id
  (h.masked, setSlot s irq_id { h with masked := mask })

/-- Source: `pcie_mask_unmask_msi_irq`.  Validates the irq id, rejects an
unsupportable mask request, then performs the locked operation.  The bool
returned by the locked helper is discarded; only a status is returned. -/
def pcie_mask_unmask_msi_irq (s : Sys) (irq_id : Nat) (mask : Bool) :
    Status × Sys :=
  if irq_id ≥ s.dev.handlers.length then (.ERR_INVALID_ARGS, s)
  else if mask && !s.plat.supports_msi_masking && !s.dev.msi.hasPvm then
    (.ERR_NOT_SUPPORTED, s)
  else (.NO_ERROR, (pcie_mask_unmask_msi_irq_locked s irq_id mask).2)

/-- One iteration of the loop in `pcie_mask_all_msi_vectors`. -/
def pcie_msi_mask_step (t : Sys) (i : Nat) : Sys :=
  (pcie_mask_unmask_msi_irq t i true).2

/-- Source: `pcie_mask_all_msi_vectors`.  Masks every handler slot's vector,
then defensively writes all ones to the PVM mask register when present. -/
def pcie_mask_all_msi_vectors (s : Sys) : Sys :=
  let n := s.dev.handlers.length
  let s := (List.range n).foldl pcie_msi_mask_step s
  if s.dev.msi.hasPvm then
    emit { s with dev.msi.pvmMask := 0xFFFFFFFF } (.writePvmReg 0xFFFFFFFF)
  else s

/-- The address- and data-register writes at the end of
`pcie_set_msi_target`: the low address bits, then the upper address bits and
the data register in the layout selected by the 64-bit capability. -/
def pcie_set_msi_target_regs (s : Sys) (tgt_addr tgt_data : Nat) : Sys :=
  let lo := tgt_addr % 2 ^ 32
  let s := emit { s with dev.msi.cfg.addr := lo } (.writeAddr lo)
  if s.dev.msi.is64bit then
    let hi := tgt_addr / 2 ^ 32
    let d := tgt_data % 2 ^ 16
    let s := emit { s with dev.msi.cfg.addr_upper := hi } (.writeAddrUpper hi)
    emit { s with dev.msi.cfg.data := d } (.writeData64 d)
  else
    let d := tgt_data % 2 ^ 16
    emit { s with dev.msi.cfg.data := d } (.writeData32 d)

/-- Source: `pcie_set_msi_target`.  Disables MSI, masks all vectors, then
writes the address and data registers. -/
def pcie_set_msi_target (s : Sys) (tgt_addr tgt_data : Nat) : Sys :=
  pcie_set_msi_target_regs (pcie_mask_all_msi_vectors (pcie_set_msi_enb s false))
    tgt_addr tgt_data

/-- Source: `pcie_msi_irq_handler` (the per-vector MSI dispatcher).
`irq_id` identifies the handler slot passed as the opaque cookie. -/
def pcie_msi_irq_handler (s : Sys) (irq_id : Nat) : HandlerReturn × Sys :=
  let p := if s.plat.supports_msi_masking || s.dev.msi.hasPvm then
      pcie_mask_unmask_msi_irq_locked s irq_id true
    else (false, s)
  let was_masked := p.1
  let s := p.2
  let hstate := slotAt s irq_id
  if was_masked then (.INT_NO_RESCHEDULE, s)
  else
    match hstate.handler with
    | none => (.INT_NO_RESCHEDULE, s)
    | some h =>
      let irq_ret := h hstate.pci_irq_id
      let s := emit s (.invoke hstate.pci_irq_id)
      let s := if !irq_ret.mask then (pcie_mask_unmask_msi_irq_locked s irq_id false).2
               else s
      (if irq_ret.resched then .INT_RESCHEDULE else .INT_NO_RESCHEDULE, s)

/-- One iteration of the loop in `pcie_free_msi_block`: mask the vector at
the platform (when supported) and unregister the platform handler. -/
def pcie_free_msi_step (s : Sys) (i : Nat) : Sys :=
  let s := if s.plat.supports_msi_masking then
      emit { s with platMasked := fun j => if j = i then true else s.platMasked j }
        (.platMaskMsi i true)
    else s
  emit { s with platHandler := fun j => if j = i then false else s.platHandler j }
    (.regMsiHandler i false)

/-- Source: `pcie_free_msi_block`.  No-op when no block is held; otherwise
masks and unregisters every vector of the block and returns it to the
platform. -/
def pcie_free_msi_block (s : Sys) : Sys :=
  if !s.dev.msi.irq_block.allocated then s
  else
    let s := (List.range s.dev.msi.irq_block.num_irq).foldl pcie_free_msi_step s
    emit { s with dev.msi.irq_block.allocated := false } .freeBlock

/-- Source: `log2_uint_ceil` of `pow2.h` (not under src/), the ceiling of the
base-2 logarithm; the source asserts the same bounds `Nat.clog` satisfies. -/
def log2_uint_ceil (n : Nat) : Nat := Nat.clog 2 n

/-- Source: `pcie_set_msi_multi_message_enb`.  Writes the Multi-Message
Enable field of the control register with the ceiling log2 of the requested
vector count (the `PCIE_CAP_MSI_CTRL_SET_MME` accessor is modelled from the
spec's register description: MME is a dedicated field of the control
register). -/
def pcie_set_msi_multi_message_enb (s : Sys) (requested_irqs : Nat) : Sys :=
  let l := log2_uint_ceil requested_irqs
  emit { s with dev.msi.cfg.mme := l } (.writeMme l)

/-- Source: `pcie_reset_common_irq_bookkeeping`.  Frees the handler table
(heap or singleton) and moves the device back to DISABLED. -/
def pcie_reset_common_irq_bookkeeping (s : Sys) : Sys :=
  { s with dev.mode := .DISABLED, dev.handlers := [] }

/-- Source: `pcie_leave_msi_irq_mode`: zero the target (disabling MSI and
masking all vectors on the way), free the block, reset bookkeeping. -/
def pcie_leave_msi_irq_mode (s : Sys) : Sys :=
  pcie_reset_common_irq_bookkeeping (pcie_free_msi_block (pcie_set_msi_target s 0 0))

/-- Source: `pcie_alloc_irq_handlers`.  `allocOk` models whether the heap
`calloc` of the multi-slot table succeeds; the single-slot case uses the
embedded singleton and cannot fail.  Each slot gets its back-pointer and
per-slot irq id. -/
def pcie_alloc_irq_handlers (allocOk : Bool) (s : Sys) (requested_irqs : Nat) :
    Status × Sys :=
  if requested_irqs = 1 then
    (.NO_ERROR, { s with dev.handlers := [{ pci_irq_id := 0 }] })
  else if !allocOk then (.ERR_NO_MEMORY, s)
  else
    (.NO_ERROR,
     { s with dev.handlers :=
        (List.range requested_irqs).map (fun i => { pci_irq_id := i }) })

/-- One iteration of the handler-registration loop in
`pcie_enter_msi_irq_mode`. -/
def pcie_msi_reg_step (t : Sys) (i : Nat) : Sys :=
  emit { t with platHandler := fun j => if j = i then true else t.platHandler j }
    (.regMsiHandler i true)

/-- Source: `pcie_enter_msi_irq_mode`.  Capability checks, block allocation,
handler-table allocation, mode switch, register programming, per-vector
handler registration, top-level enable; any failure after the capability
checks unwinds through `pcie_leave_msi_irq_mode`. -/
def pcie_enter_msi_irq_mode (allocOk : Bool) (s : Sys) (requested_irqs : Nat) :
    Status × Sys :=
  if !s.dev.msi.hasCfg || !s.plat.supports_msi
      || requested_irqs > s.dev.msi.max_irqs then
    (.ERR_NOT_SUPPORTED, s)
  else if s.plat.alloc_res ≠ .NO_ERROR then
    (s.plat.alloc_res, pcie_leave_msi_irq_mode s)
  else
    let blk := { s.plat.alloc_block with allocated := true }
    let s := { s with dev.msi.irq_block := blk }
    let r := pcie_alloc_irq_handlers allocOk s requested_irqs
    if r.1 ≠ .NO_ERROR then (r.1, pcie_leave_msi_irq_mode r.2)
    else
      let s := { r.2 with dev.mode := .MSI }
      let s := pcie_set_msi_target s blk.tgt_addr blk.tgt_data
      let s := pcie_set_msi_multi_message_enb s requested_irqs
      let s := (List.range s.dev.handlers.length).foldl pcie_msi_reg_step s
      (.NO_ERROR, pcie_set_msi_enb s true)

/-- Source: `pcie_mask_unmask_legacy_irq`.  Sets or clears INT_DISABLE in
the command register under the slot lock and updates the single slot's
`masked` flag. -/
def pcie_mask_unmask_legacy_irq (s : Sys) (mask : Bool) : Status × Sys :=
  if s.dev.handlers.length = 0 then (.ERR_INVALID_ARGS, s)
  else
    let h := slotAt s 0
    let s := { s with dev.cmd_int_disable := mask }
    (.NO_ERROR, setSlot s 0 { h with masked := mask })

/-- Source: `SharedLegacyIrqHandler::AddDevice`, viewed from the device under
test: assert INT_DISABLE at the device, append it to the dispatcher's list
and unmask the platform vector when the list was empty. -/
def sysAddDevice (s : Sys) : Sys :=
  let s := { s with dev.cmd_int_disable := true }
  let first := s.legacyList.isEmpty
  let s := { s with legacyList := s.legacyList ++ [s.devId], dev.legacy_inList := true }
  if first then { s with vectorMasked := false } else s

/-- Source: `SharedLegacyIrqHandler::RemoveDevice`, viewed from the device
under test: reassert INT_DISABLE, unlink, mask the platform vector when the
list became empty. -/
def sysRemoveDevice (s : Sys) : Sys :=
  let s := { s with dev.cmd_int_disable := true }
  let s := { s with legacyList := s.legacyList.eraseP (fun j => j = s.devId),
                    dev.legacy_inList := false }
  if s.legacyList.isEmpty then { s with vectorMasked := true } else s

/-- Source: `pcie_enter_legacy_irq_mode`.  Requires a legacy pin and a single
requested irq; the singleton allocation cannot fail and its status is
ignored (the source asserts it). -/
def pcie_enter_legacy_irq_mode (allocOk : Bool) (s : Sys) (requested_irqs : Nat) :
    Status × Sys :=
  if s.dev.legacy_pin = 0 || requested_irqs > 1 then (.ERR_NOT_SUPPORTED, s)
  else
    let s := (pcie_alloc_irq_handlers allocOk s requested_irqs).2
    let s := { s with dev.mode := .LEGACY }
    (.NO_ERROR, sysAddDevice s)

/-- Source: `pcie_leave_legacy_irq_mode`. -/
def pcie_leave_legacy_irq_mode (s : Sys) : Sys :=
  let s := (pcie_mask_unmask_legacy_irq s true).2
  pcie_reset_common_irq_bookkeeping (sysRemoveDevice s)

/-- Source: `pcie_set_irq_mode_internal`. -/
def pcie_set_irq_mode_internal (allocOk : Bool) (s : Sys) (mode : PcieIrqMode)
    (requested_irqs : Nat) : Status × Sys :=
  if mode = .DISABLED then
    match s.dev.mode with
    | .DISABLED => (.NO_ERROR, s)
    | .LEGACY => (.NO_ERROR, pcie_leave_legacy_irq_mode s)
    | .MSI => (.NO_ERROR, pcie_leave_msi_irq_mode s)
    | .MSI_X => (.ERR_NOT_SUPPORTED, s)
  else if requested_irqs < 1 then (.ERR_INVALID_ARGS, s)
  else if s.dev.mode ≠ .DISABLED then (.ERR_BAD_STATE, s)
  else
    match mode with
    | .LEGACY => pcie_enter_legacy_irq_mode allocOk s requested_irqs
    | .MSI => pcie_enter_msi_irq_mode allocOk s requested_irqs
    | .MSI_X => (.ERR_NOT_SUPPORTED, s)
    | .DISABLED => (.ERR_INVALID_ARGS, s)

/-- Source: `pcie_set_irq_mode` (public entry with the plugged/disabled
gate; a pure DISABLED request bypasses the gate). -/
def pcie_set_irq_mode (allocOk : Bool) (s : Sys) (mode : PcieIrqMode)
    (requested_irqs : Nat) : Status × Sys :=
  if mode = .DISABLED ∨ (s.dev.plugged_in && !s.dev.disabled) = true then
    pcie_set_irq_mode_internal allocOk s mode requested_irqs
  else (.ERR_BAD_STATE, s)

/-- Source: `pcie_mask_unmask_irq_internal`. -/
def pcie_mask_unmask_irq_internal (s : Sys) (irq_id : Nat) (mask : Bool) :
    Status × Sys :=
  if s.dev.mode = .DISABLED then (.ERR_BAD_STATE, s)
  else if irq_id ≥ s.dev.handlers.length then (.ERR_INVALID_ARGS, s)
  else if !mask && (slotAt s irq_id).handler.isNone then (.ERR_BAD_STATE, s)
  else
    match s.dev.mode with
    | .LEGACY => pcie_mask_unmask_legacy_irq s mask
    | .MSI => pcie_mask_unmask_msi_irq s irq_id mask
    | .MSI_X => (.ERR_NOT_SUPPORTED, s)
    | .DISABLED => (.ERR_INTERNAL, s)

/-- Source: `pcie_mask_unmask_irq` (public entry; a mask request bypasses
the plugged/disabled gate, needed for teardown). -/
def pcie_mask_unmask_irq (s : Sys) (irq_id : Nat) (mask : Bool) : Status × Sys :=
  if mask = true ∨ (s.dev.plugged_in && !s.dev.disabled) = true then
    pcie_mask_unmask_irq_internal s irq_id mask
  else (.ERR_BAD_STATE, s)

/-! The shared legacy dispatcher, modelled with its full device list
(`SharedLegacyIrqHandler` of the source).  Each participating device is
represented by the registers and the single handler slot the dispatch pass
reads and writes. -/

/-- The single handler slot of a legacy-mode device as seen by the shared
dispatcher. -/
structure LegacySlot where
  handler : Option (Nat → IrqRetval) := none
  masked : Bool := false

/-- One device on a shared dispatcher's list: its id, the INT_STATUS bit of
its status register, the INT_DISABLE bit of its command register, and its
slot. -/
structure LegacyDev where
  id : Nat := 0
  status_int_sts : Bool := false
  cmd_int_disable : Bool := false
  slot : LegacySlot := {}

/-- State of one `SharedLegacyIrqHandler`: the owned system vector, the
intrusive device list in insertion order, and the platform mask state of
that vector. -/
structure SharedLegacyIrqHandlerState where
  irq_id : Nat := 0
  device_handler_list : List LegacyDev := []
  vectorMasked : Bool := true

/-- Source: the `SharedLegacyIrqHandler` constructor: empty list, vector
masked, low-level handler registered. -/
def SharedLegacyIrqHandler.create (irq_id : Nat) : SharedLegacyIrqHandlerState :=
  { irq_id := irq_id, device_handler_list := [], vectorMasked := true }

/-- Source: `SharedLegacyIrqHandler::AddDevice`.  Masks the device at the
config level, appends it, and unmasks the platform vector when it was the
first device. -/
def SharedLegacyIrqHandler.AddDevice (s : SharedLegacyIrqHandlerState)
    (d : LegacyDev) : SharedLegacyIrqHandlerState :=
  let d := { d with cmd_int_disable := true }
  let first := s.device_handler_list.isEmpty
  let s := { s with device_handler_list := s.device_handler_list ++ [d] }
  if first then { s with vectorMasked := false } else s

/-- Source: `SharedLegacyIrqHandler::RemoveDevice`.  Unlinks the device with
the given id and masks the platform vector when the list became empty. -/
def SharedLegacyIrqHandler.RemoveDevice (s : SharedLegacyIrqHandlerState)
    (i : Nat) : SharedLegacyIrqHandlerState :=
  let s := { s with device_handler_list :=
      s.device_handler_list.eraseP (fun d => d.id == i) }
  if s.device_handler_list.isEmpty then { s with vectorMasked := true } else s

/-- One device's portion of `SharedLegacyIrqHandler::Handler`: returns the
updated device, the invocation of its driver callback (device id and the
irq id it was invoked with) when one happened, and whether a reschedule was
requested. -/
def legacyServiceDev (d : LegacyDev) : LegacyDev × Option (Nat × Nat) × Bool :=
  if d.status_int_sts && !d.cmd_int_disable then
    match d.slot.handler with
    | some h =>
      if !d.slot.masked then
        let irq_ret := h 0
        let d1 := if irq_ret.mask then
            { d with slot.masked := true, cmd_int_disable := true }
          else d
        (d1, some (d.id, 0), irq_ret.resched)
      else ({ d with slot.masked := true, cmd_int_disable := true }, none, false)
    | none => ({ d with slot.masked := true, cmd_int_disable := true }, none, false)
  else (d, none, false)

/-- Source: `SharedLegacyIrqHandler::Handler`.  An empty list is a spurious
interrupt: mask the vector.  Otherwise service every device in list order;
return RESCHEDULE when some serviced device asked for it, together with the
invocations performed. -/
def SharedLegacyIrqHandler.Handler (s : SharedLegacyIrqHandlerState) :
    HandlerReturn × SharedLegacyIrqHandlerState × List (Nat × Nat) :=
  if s.device_handler_list.isEmpty then
    (.INT_NO_RESCHEDULE, { s with vectorMasked := true }, [])
  else
    let res := s.device_handler_list.map legacyServiceDev
    let need := res.any (fun r => r.2.2)
    ((if need then .INT_RESCHEDULE else .INT_NO_RESCHEDULE),
     { s with device_handler_list := res.map (fun r => r.1) },
     res.filterMap (fun r => r.2.1))

/-! Basic lemmas about the state operations. -/

theorem getD_set_self {α : Type} (l : List α) (i : Nat) (a d : α)
    (h : i < l.length) : (l.set i a).getD i d = a := by
  induction l generalizing i with
  | nil => simp at h
  | cons x xs ih =>
    cases i with
    | zero => rfl
    | succ n => exact ih n (by simpa using h)

theorem getD_set_ne {α : Type} (l : List α) (i j : Nat) (a d : α)
    (h : i ≠ j) : (l.set i a).getD j d = l.getD j d := by
  induction l generalizing i j with
  | nil => rfl
  | cons x xs ih =>
    cases i with
    | zero =>
      cases j with
      | zero => exact absurd rfl h
      | succ m => rfl
    | succ n =>
      cases j with
      | zero => rfl
      | succ m => exact ih n m (by omega)

theorem slotAt_setSlot_self (s : Sys) (i : Nat) (h : pcie_irq_handler_state_t)
    (hlt : i < s.dev.handlers.length) : slotAt (setSlot s i h) i = h :=
  getD_set_self _ _ _ _ hlt

theorem length_setSlot (s : Sys) (i : Nat) (h : pcie_irq_handler_state_t) :
    (setSlot s i h).dev.handlers.length = s.dev.handlers.length :=
  List.length_set ..

/-! C10: a single requested IRQ uses the embedded singleton slot, so the
handler-table allocation cannot fail with NO_MEMORY, and neither can
`set_mode(LEGACY, 1)`. -/

/-- C10: for one requested IRQ the handler-table allocator always succeeds
(the embedded singleton is used, no heap allocation is consulted), and
`pcie_set_irq_mode(LEGACY, 1)` never returns ERR_NO_MEMORY, whatever the
device state and whatever the heap would do. -/
theorem c10_legacy_one_never_no_memory (allocOk : Bool) (s : Sys) :
    (pcie_alloc_irq_handlers allocOk s 1).1 = .NO_ERROR ∧
    (pcie_alloc_irq_handlers allocOk s 1).2.dev.handlers.length = 1 ∧
    (pcie_set_irq_mode allocOk s .LEGACY 1).1 ≠ .ERR_NO_MEMORY := by
  refine ⟨rfl, rfl, ?_⟩
  unfold pcie_set_irq_mode pcie_set_irq_mode_internal pcie_enter_legacy_irq_mode
  split_ifs <;> simp_all [pcie_alloc_irq_handlers]

/-! C2: requesting an active mode while not DISABLED.  The source checks
`requested_irqs < 1` before the BAD_STATE check, so with requested_irqs = 0
the call fails with ERR_INVALID_ARGS, not ERR_BAD_STATE; the state is
unchanged in both cases. -/

/-- A plugged-in device currently in LEGACY mode. -/
def c2sys : Sys := { dev := { mode := .LEGACY, handlers := [{}] } }

/-- C2 counterexample: on a plugged-in device in LEGACY mode,
`set_mode(MSI, 0)` returns ERR_INVALID_ARGS, not ERR_BAD_STATE as the claim
requires for every requested_irqs value. -/
theorem c2_counterexample :
    c2sys.dev.mode ≠ .DISABLED ∧ c2sys.dev.plugged_in = true ∧
    (pcie_set_irq_mode true c2sys .MSI 0).1 = .ERR_INVALID_ARGS ∧
    (pcie_set_irq_mode true c2sys .MSI 0).1 ≠ .ERR_BAD_STATE := by
  exact ⟨by decide, rfl, rfl, by decide⟩

/-- C2 amended: on a plugged-in, not-disabled device whose mode is not
DISABLED, requesting an active target mode leaves the state unchanged and
fails: with ERR_INVALID_ARGS when requested_irqs = 0 (the argument check
precedes the state check), with ERR_BAD_STATE otherwise. -/
theorem c2_amended (allocOk : Bool) (s : Sys) (mode : PcieIrqMode) (n : Nat)
    (hact : mode ≠ .DISABLED) (hmode : s.dev.mode ≠ .DISABLED)
    (hplug : s.dev.plugged_in = true) (hdis : s.dev.disabled = false) :
    (pcie_set_irq_mode allocOk s mode n).2 = s ∧
    (pcie_set_irq_mode allocOk s mode n).1 =
      (if n < 1 then .ERR_INVALID_ARGS else .ERR_BAD_STATE) := by
  unfold pcie_set_irq_mode pcie_set_irq_mode_internal
  rw [if_pos (Or.inr (by simp [hplug, hdis]))]
  rw [if_neg hact]
  by_cases hn : n < 1
  · rw [if_pos hn, if_pos hn]; exact ⟨rfl, rfl⟩
  · rw [if_neg hn, if_neg hn, if_pos hmode]; exact ⟨rfl, rfl⟩

/-- C2 amended, witnessed at a concrete input. -/
theorem c2_amended_witness :
    (pcie_set_irq_mode true c2sys .MSI 0).2 = c2sys ∧
    (pcie_set_irq_mode true c2sys .MSI 0).1 =
      (if 0 < 1 then .ERR_INVALID_ARGS else .ERR_BAD_STATE) :=
  c2_amended true c2sys .MSI 0 (by decide) (by decide) rfl rfl

/-! C3: who receives the previous `masked` value.  The locked helper
`pcie_mask_unmask_msi_irq_locked` returns it, but the status-returning
`pcie_mask_unmask_msi_irq` discards it and returns NO_ERROR, so the caller
of the mask_unmask operation never sees it. -/

/-- The locked mask primitive returns the slot's `masked` flag as it was on
entry (the PVM and platform updates do not touch the handler table). -/
theorem locked_prev (s : Sys) (irq_id : Nat) (mask : Bool) :
    (pcie_mask_unmask_msi_irq_locked s irq_id mask).1 = (slotAt s irq_id).masked := by
  unfold pcie_mask_unmask_msi_irq_locked
  dsimp only
  split_ifs <;> rfl

/-- An MSI-mode device with PVM, one slot, slot unmasked. -/
def c3unmasked : Sys :=
  { dev := { mode := .MSI,
             handlers := [{ handler := some (fun _ => { mask := false, resched := false }) }],
             msi := { hasCfg := true, hasPvm := true,
                      irq_block := { allocated := true, num_irq := 1 } } } }

/-- As `c3unmasked` but with the slot's `masked` flag already true. -/
def c3masked : Sys :=
  { dev := { mode := .MSI,
             handlers := [{ handler := some (fun _ => { mask := false, resched := false }),
                            masked := true }],
             msi := { hasCfg := true, hasPvm := true,
                      irq_block := { allocated := true, num_irq := 1 } } } }

/-- C3 counterexample: two states differing only in the slot's prior
`masked` value.  The successful `pcie_mask_unmask_msi_irq` call returns the
same value (NO_ERROR) on both, so its return does not carry the previous
`masked`; the inner locked helper is what returns it. -/
theorem c3_counterexample :
    (slotAt c3unmasked 0).masked = false ∧
    (slotAt c3masked 0).masked = true ∧
    (pcie_mask_unmask_msi_irq c3unmasked 0 true).1 = .NO_ERROR ∧
    (pcie_mask_unmask_msi_irq c3masked 0 true).1 = .NO_ERROR ∧
    (pcie_mask_unmask_msi_irq_locked c3unmasked 0 true).1 = false ∧
    (pcie_mask_unmask_msi_irq_locked c3masked 0 true).1 = true :=
  ⟨rfl, rfl, rfl, rfl, rfl, rfl⟩

/-- C3 amended: the locked helper returns the previous value of the slot's
`masked` flag; the status-returning wrapper, when it succeeds, performs the
locked operation but returns only NO_ERROR (the previous value is
discarded). -/
theorem c3_amended (s : Sys) (irq_id : Nat) (mask : Bool)
    (hmode : s.dev.mode = .MSI) (hirq : irq_id < s.dev.handlers.length) :
    (pcie_mask_unmask_msi_irq_locked s irq_id mask).1 = (slotAt s irq_id).masked ∧
    ((mask = true → (s.plat.supports_msi_masking || s.dev.msi.hasPvm) = true) →
      pcie_mask_unmask_msi_irq s irq_id mask =
        (.NO_ERROR, (pcie_mask_unmask_msi_irq_locked s irq_id mask).2)) := by
  constructor
  · exact locked_prev s irq_id mask
  · intro hmech
    unfold pcie_mask_unmask_msi_irq
    rw [if_neg (by omega)]
    have hc : ¬(mask && !s.plat.supports_msi_masking && !s.dev.msi.hasPvm) = true := by
      cases mask with
      | false => simp
      | true =>
        have h1 := hmech rfl
        cases hp : s.plat.supports_msi_masking <;>
          cases hv : s.dev.msi.hasPvm <;> simp_all
    rw [if_neg hc]

/-- C3 amended, witnessed at a concrete input. -/
theorem c3_amended_witness :
    (pcie_mask_unmask_msi_irq_locked c3masked 0 true).1 = (slotAt c3masked 0).masked ∧
    ((true = true → (c3masked.plat.supports_msi_masking || c3masked.dev.msi.hasPvm) = true) →
      pcie_mask_unmask_msi_irq c3masked 0 true =
        (.NO_ERROR, (pcie_mask_unmask_msi_irq_locked c3masked 0 true).2)) :=
  c3_amended c3masked 0 true rfl (by decide)

/-! C8: mask/unmask gating.  Unmasking a slot without a handler, or on a
plugged-out device, fails BAD_STATE.  Masking bypasses the plugged-in gate,
but it only succeeds when the active mode can actually mask: always in
LEGACY, and in MSI only when the platform or the PVM register provides a
mask mechanism (otherwise ERR_NOT_SUPPORTED, also on a plugged-out
device). -/

/-- A plugged-out MSI-mode device with neither platform MSI masking nor a
PVM mask register. -/
def c8sys : Sys :=
  { dev := { plugged_in := false, mode := .MSI,
             handlers := [{ handler := some (fun _ => { mask := false, resched := false }) }],
             msi := { hasCfg := true, irq_block := { allocated := true, num_irq := 1 } } },
    plat := { supports_msi_masking := false } }

/-- C8 counterexample: masking this plugged-out MSI device is admitted past
the plugged-in gate but returns ERR_NOT_SUPPORTED, not success, because no
mask mechanism exists. -/
theorem c8_counterexample :
    c8sys.dev.plugged_in = false ∧ c8sys.dev.mode ≠ .DISABLED ∧
    0 < c8sys.dev.handlers.length ∧
    (pcie_mask_unmask_irq c8sys 0 true).1 = .ERR_NOT_SUPPORTED := by
  exact ⟨rfl, by decide, by decide, rfl⟩

/-- C8 amended: unmask without a registered handler fails BAD_STATE; unmask
on a plugged-out device fails BAD_STATE; mask bypasses the plugged-in gate
and succeeds in LEGACY mode, succeeds in MSI mode when a mask mechanism
(platform or PVM) exists, and fails ERR_NOT_SUPPORTED in MSI mode when none
does. -/
theorem c8_amended (s : Sys) (irq_id : Nat) :
    (s.dev.mode ≠ .DISABLED → irq_id < s.dev.handlers.length →
      (slotAt s irq_id).handler.isNone = true →
      (pcie_mask_unmask_irq s irq_id false).1 = .ERR_BAD_STATE) ∧
    (s.dev.plugged_in = false →
      (pcie_mask_unmask_irq s irq_id false).1 = .ERR_BAD_STATE) ∧
    (s.dev.mode = .LEGACY → irq_id < s.dev.handlers.length →
      (pcie_mask_unmask_irq s irq_id true).1 = .NO_ERROR) ∧
    (s.dev.mode = .MSI → irq_id < s.dev.handlers.length →
      (s.plat.supports_msi_masking || s.dev.msi.hasPvm) = true →
      (pcie_mask_unmask_irq s irq_id true).1 = .NO_ERROR) ∧
    (s.dev.mode = .MSI → irq_id < s.dev.handlers.length →
      (s.plat.supports_msi_masking || s.dev.msi.hasPvm) = false →
      (pcie_mask_unmask_irq s irq_id true).1 = .ERR_NOT_SUPPORTED) := by
  refine ⟨?_, ?_, ?_, ?_, ?_⟩
  · intro hmode hirq hnone
    unfold pcie_mask_unmask_irq pcie_mask_unmask_irq_internal
    split_ifs <;> simp_all <;> omega
  · intro hplug
    unfold pcie_mask_unmask_irq
    rw [if_neg (by simp [hplug])]
  · intro hmode hirq
    unfold pcie_mask_unmask_irq pcie_mask_unmask_irq_internal
    rw [if_pos (Or.inl rfl), if_neg (by simp [hmode]), if_neg (by omega),
        if_neg (by simp)]
    rw [hmode]
    unfold pcie_mask_unmask_legacy_irq
    rw [if_neg (by omega)]
  · intro hmode hirq hmech
    unfold pcie_mask_unmask_irq pcie_mask_unmask_irq_internal
    rw [if_pos (Or.inl rfl), if_neg (by simp [hmode]), if_neg (by omega),
        if_neg (by simp)]
    rw [hmode]
    unfold pcie_mask_unmask_msi_irq
    rw [if_neg (by omega), if_neg (by cases hp : s.plat.supports_msi_masking <;> simp_all)]
  · intro hmode hirq hmech
    unfold pcie_mask_unmask_irq pcie_mask_unmask_irq_internal
    rw [if_pos (Or.inl rfl), if_neg (by simp [hmode]), if_neg (by omega),
        if_neg (by simp)]
    rw [hmode]
    unfold pcie_mask_unmask_msi_irq
    rw [if_neg (by omega), if_pos (by cases hp : s.plat.supports_msi_masking <;> simp_all)]

/-- C8 amended, witnessed at concrete inputs: unmask on the plugged-out
device fails BAD_STATE and mask on it is not rejected by the plugged-in
gate (it reaches the MSI path, ERR_NOT_SUPPORTED here since no mechanism
exists). -/
theorem c8_amended_witness :
    (pcie_mask_unmask_irq c8sys 0 false).1 = .ERR_BAD_STATE ∧
    (pcie_mask_unmask_irq c8sys 0 true).1 = .ERR_NOT_SUPPORTED :=
  ⟨(c8_amended c8sys 0).2.1 rfl,
   (c8_amended c8sys 0).2.2.2.2 rfl (by decide) (by decide)⟩

/-! Preservation lemmas for the mask/unmask paths, used for sequencing two
calls. -/

theorem handler_getD_set (l : List pcie_irq_handler_state_t) (t i : Nat)
    (h : pcie_irq_handler_state_t)
    (hpres : h.handler = (l.getD t {}).handler) :
    ((l.set t h).getD i {}).handler = (l.getD i {}).handler := by
  induction l generalizing t i with
  | nil => rfl
  | cons x xs ih =>
    cases t with
    | zero =>
      cases i with
      | zero => exact hpres
      | succ m => rfl
    | succ n =>
      cases i with
      | zero => rfl
      | succ m => exact ih n m (by simpa using hpres)

/-- The locked MSI mask primitive only changes the PVM register, the
platform mask bit, the trace and the targeted slot's `masked` flag. -/
theorem locked_projs (s : Sys) (irq_id : Nat) (mask : Bool) :
    (pcie_mask_unmask_msi_irq_locked s irq_id mask).2.dev.plugged_in = s.dev.plugged_in ∧
    (pcie_mask_unmask_msi_irq_locked s irq_id mask).2.dev.disabled = s.dev.disabled ∧
    (pcie_mask_unmask_msi_irq_locked s irq_id mask).2.dev.mode = s.dev.mode ∧
    (pcie_mask_unmask_msi_irq_locked s irq_id mask).2.dev.handlers.length
      = s.dev.handlers.length ∧
    ∀ i, (slotAt (pcie_mask_unmask_msi_irq_locked s irq_id mask).2 i).handler
      = (slotAt s i).handler := by
  unfold pcie_mask_unmask_msi_irq_locked
  dsimp only
  split_ifs <;>
    exact ⟨rfl, rfl, rfl, List.length_set .., fun i => handler_getD_set _ _ _ _ rfl⟩

/-- The targeted slot after the locked MSI mask primitive: same fields with
`masked := mask`. -/
theorem locked_slot_self (s : Sys) (irq_id : Nat) (mask : Bool)
    (hirq : irq_id < s.dev.handlers.length) :
    slotAt (pcie_mask_unmask_msi_irq_locked s irq_id mask).2 irq_id
      = { slotAt s irq_id with masked := mask } := by
  unfold pcie_mask_unmask_msi_irq_locked
  dsimp only
  split_ifs <;> exact slotAt_setSlot_self _ _ _ (by exact hirq)

/-- The public mask/unmask entry changes nothing but the command register,
the PVM register, the platform mask bit, the trace and the targeted slot's
`masked` flag. -/
theorem mask_unmask_projs (s : Sys) (irq_id : Nat) (mask : Bool) :
    (pcie_mask_unmask_irq s irq_id mask).2.dev.plugged_in = s.dev.plugged_in ∧
    (pcie_mask_unmask_irq s irq_id mask).2.dev.disabled = s.dev.disabled ∧
    (pcie_mask_unmask_irq s irq_id mask).2.dev.mode = s.dev.mode ∧
    (pcie_mask_unmask_irq s irq_id mask).2.dev.handlers.length
      = s.dev.handlers.length ∧
    ∀ i, (slotAt (pcie_mask_unmask_irq s irq_id mask).2 i).handler
      = (slotAt s i).handler := by
  unfold pcie_mask_unmask_irq pcie_mask_unmask_irq_internal
  split_ifs
  all_goals
    first
    | exact ⟨rfl, rfl, rfl, rfl, fun i => rfl⟩
    | skip
  cases hm : s.dev.mode with
  | DISABLED => exact ⟨rfl, rfl, hm, rfl, fun i => rfl⟩
  | MSI_X => exact ⟨rfl, rfl, hm, rfl, fun i => rfl⟩
  | LEGACY =>
    unfold pcie_mask_unmask_legacy_irq
    split_ifs
    · exact ⟨rfl, rfl, hm, rfl, fun i => rfl⟩
    · exact ⟨rfl, rfl, hm, List.length_set .., fun i => handler_getD_set _ _ _ _ rfl⟩
  | MSI =>
    unfold pcie_mask_unmask_msi_irq
    split_ifs <;>
      first
      | exact ⟨rfl, rfl, hm, rfl, fun i => rfl⟩
      | exact ⟨(locked_projs s irq_id mask).1, (locked_projs s irq_id mask).2.1,
          (locked_projs s irq_id mask).2.2.1.trans hm,
          (locked_projs s irq_id mask).2.2.2.1,
          (locked_projs s irq_id mask).2.2.2.2⟩

/-- Specification of a successful unmask: on a plugged-in LEGACY or MSI
device with a registered handler it returns NO_ERROR and clears the slot's
`masked` flag. -/
theorem mask_unmask_unmask_spec (s : Sys) (irq_id : Nat)
    (hplug : s.dev.plugged_in = true) (hdis : s.dev.disabled = false)
    (hmode : s.dev.mode = .LEGACY ∨ s.dev.mode = .MSI)
    (hleg : s.dev.mode = .LEGACY → irq_id = 0)
    (hirq : irq_id < s.dev.handlers.length)
    (hh : (slotAt s irq_id).handler.isSome = true) :
    (pcie_mask_unmask_irq s irq_id false).1 = .NO_ERROR ∧
    (slotAt (pcie_mask_unmask_irq s irq_id false).2 irq_id).masked = false := by
  unfold pcie_mask_unmask_irq pcie_mask_unmask_irq_internal
  rw [if_pos (Or.inr (by simp [hplug, hdis]))]
  rw [if_neg (by rcases hmode with h | h <;> simp [h])]
  rw [if_neg (by omega)]
  have hno : (slotAt s irq_id).handler.isNone = false := by
    cases ho : (slotAt s irq_id).handler with
    | none => rw [ho] at hh; simp at hh
    | some f => rfl
  rw [if_neg (by simp [hno])]
  rcases hmode with hm | hm
  · have hz := hleg hm
    subst hz
    rw [hm]
    unfold pcie_mask_unmask_legacy_irq
    rw [if_neg (by omega)]
    exact ⟨rfl, by rw [slotAt_setSlot_self _ _ _ (by exact hirq)]⟩
  · rw [hm]
    unfold pcie_mask_unmask_msi_irq
    rw [if_neg (by omega), if_neg (by simp)]
    exact ⟨rfl, by rw [locked_slot_self _ _ _ hirq]⟩

/-! C9: mask followed by unmask.  Both the legacy and the MSI paths write
`masked := mask` unconditionally, so the sequence always ends with
`masked = false`; the prior value is restored only when it was false. -/

/-- A plugged-in LEGACY device whose single slot is already masked and has a
registered handler. -/
def c9sys : Sys :=
  { dev := { mode := .LEGACY, legacy_pin := 1,
             handlers := [{ handler := some (fun _ => { mask := false, resched := false }),
                            masked := true }] } }

/-- C9 counterexample: with the slot's prior `masked` = true, both calls
succeed, yet after mask-then-unmask the flag is false — the prior value is
not restored. -/
theorem c9_counterexample :
    (slotAt c9sys 0).masked = true ∧
    (pcie_mask_unmask_irq c9sys 0 true).1 = .NO_ERROR ∧
    (pcie_mask_unmask_irq (pcie_mask_unmask_irq c9sys 0 true).2 0 false).1 = .NO_ERROR ∧
    (slotAt (pcie_mask_unmask_irq (pcie_mask_unmask_irq c9sys 0 true).2 0 false).2 0).masked
      = false :=
  ⟨rfl, rfl, rfl, rfl⟩

/-- C9 amended: on a plugged-in device in LEGACY or MSI mode with a
registered handler in the slot, mask-then-unmask succeeds and always leaves
the slot's `masked` flag false; hence it restores the prior value exactly
when that value was false. -/
theorem c9_amended (s : Sys) (irq_id : Nat)
    (hplug : s.dev.plugged_in = true) (hdis : s.dev.disabled = false)
    (hmode : s.dev.mode = .LEGACY ∨ s.dev.mode = .MSI)
    (hleg : s.dev.mode = .LEGACY → irq_id = 0)
    (hirq : irq_id < s.dev.handlers.length)
    (hh : (slotAt s irq_id).handler.isSome = true) :
    (pcie_mask_unmask_irq (pcie_mask_unmask_irq s irq_id true).2 irq_id false).1
      = .NO_ERROR ∧
    (slotAt (pcie_mask_unmask_irq (pcie_mask_unmask_irq s irq_id true).2 irq_id false).2
      irq_id).masked = false := by
  have hp1 := mask_unmask_projs s irq_id true
  have h2 := mask_unmask_unmask_spec (pcie_mask_unmask_irq s irq_id true).2 irq_id
    (by rw [hp1.1, hplug]) (by rw [hp1.2.1, hdis]) (by rw [hp1.2.2.1]; exact hmode)
    (by rw [hp1.2.2.1]; exact hleg) (by rw [hp1.2.2.2.1]; exact hirq)
    (by rw [hp1.2.2.2.2 irq_id]; exact hh)
  exact h2

/-- C9 amended, witnessed at the concrete LEGACY device with prior
`masked` = true. -/
theorem c9_amended_witness :
    (pcie_mask_unmask_irq (pcie_mask_unmask_irq c9sys 0 true).2 0 false).1
      = .NO_ERROR ∧
    (slotAt (pcie_mask_unmask_irq (pcie_mask_unmask_irq c9sys 0 true).2 0 false).2
      0).masked = false :=
  c9_amended c9sys 0 rfl rfl (Or.inl rfl) (fun _ => rfl) (by decide) rfl

/-! C5: the shared legacy dispatcher's platform vector is unmasked iff its
device list is non-empty, and attach/detach/dispatch maintain this. -/

/-- The C5 invariant: the platform vector of a shared dispatcher is masked
exactly when its device list is empty. -/
def SharedInv (s : SharedLegacyIrqHandlerState) : Prop :=
  s.vectorMasked = s.device_handler_list.isEmpty

/-- C5: creation establishes the invariant; AddDevice, RemoveDevice and a
dispatch pass preserve it; AddDevice always leaves the vector unmasked and
changes the mask state exactly when the list was empty; RemoveDevice leaves
the vector masked exactly when the list became empty; a dispatch on an empty
list masks the vector. -/
theorem c5_shared_vector_invariant (s : SharedLegacyIrqHandlerState)
    (d : LegacyDev) (i : Nat) (h : SharedInv s) :
    SharedInv (SharedLegacyIrqHandler.create i) ∧
    SharedInv (SharedLegacyIrqHandler.AddDevice s d) ∧
    SharedInv (SharedLegacyIrqHandler.RemoveDevice s i) ∧
    SharedInv (SharedLegacyIrqHandler.Handler s).2.1 ∧
    (SharedLegacyIrqHandler.AddDevice s d).vectorMasked = false ∧
    ((SharedLegacyIrqHandler.AddDevice s d).vectorMasked ≠ s.vectorMasked ↔
      s.device_handler_list.isEmpty = true) ∧
    ((SharedLegacyIrqHandler.RemoveDevice s i).vectorMasked = true ↔
      (s.device_handler_list.eraseP (fun x => x.id == i)).isEmpty = true) ∧
    (s.device_handler_list = [] →
      (SharedLegacyIrqHandler.Handler s).2.1.vectorMasked = true) := by
  unfold SharedInv at h
  refine ⟨rfl, ?_, ?_, ?_, ?_, ?_, ?_, ?_⟩
  · unfold SharedLegacyIrqHandler.AddDevice SharedInv
    dsimp only
    split_ifs with hfirst <;> simp_all
  · unfold SharedLegacyIrqHandler.RemoveDevice SharedInv
    dsimp only
    split_ifs with hemp
    · simp [hemp]
    · have h1 : (s.device_handler_list.eraseP (fun x => x.id == i)).isEmpty = false := by
        cases hx : (s.device_handler_list.eraseP (fun x => x.id == i)).isEmpty
        · rfl
        · exact absurd hx hemp
      have h2 : s.device_handler_list.isEmpty = false := by
        cases hll : s.device_handler_list with
        | nil => rw [hll] at h1; simp at h1
        | cons a l => rfl
      rw [h, h2, h1]
  · unfold SharedLegacyIrqHandler.Handler SharedInv
    dsimp only
    split_ifs with hemp <;> simp_all
  · unfold SharedLegacyIrqHandler.AddDevice
    dsimp only
    split_ifs with hfirst <;> simp_all
  · unfold SharedLegacyIrqHandler.AddDevice
    dsimp only
    split_ifs with hfirst <;> simp_all
  · unfold SharedLegacyIrqHandler.RemoveDevice
    dsimp only
    split_ifs with hemp <;> simp_all
  · intro hnil
    unfold SharedLegacyIrqHandler.Handler
    rw [if_pos (by simp [hnil])]

/-- C5, witnessed at a concrete dispatcher state. -/
theorem c5_shared_vector_invariant_witness :
    SharedInv (SharedLegacyIrqHandler.create 17) ∧
    SharedInv (SharedLegacyIrqHandler.AddDevice (SharedLegacyIrqHandler.create 17) {}) ∧
    SharedInv (SharedLegacyIrqHandler.RemoveDevice (SharedLegacyIrqHandler.create 17) 0) ∧
    SharedInv (SharedLegacyIrqHandler.Handler (SharedLegacyIrqHandler.create 17)).2.1 ∧
    (SharedLegacyIrqHandler.AddDevice (SharedLegacyIrqHandler.create 17) {}).vectorMasked
      = false ∧
    ((SharedLegacyIrqHandler.AddDevice (SharedLegacyIrqHandler.create 17) {}).vectorMasked
        ≠ (SharedLegacyIrqHandler.create 17).vectorMasked ↔
      (SharedLegacyIrqHandler.create 17).device_handler_list.isEmpty = true) ∧
    ((SharedLegacyIrqHandler.RemoveDevice (SharedLegacyIrqHandler.create 17) 0).vectorMasked
        = true ↔
      ((SharedLegacyIrqHandler.create 17).device_handler_list.eraseP
        (fun x => x.id == 0)).isEmpty = true) ∧
    ((SharedLegacyIrqHandler.create 17).device_handler_list = [] →
      (SharedLegacyIrqHandler.Handler (SharedLegacyIrqHandler.create 17)).2.1.vectorMasked
        = true) :=
  c5_shared_vector_invariant (SharedLegacyIrqHandler.create 17) {} 0 rfl

/-! C6: one legacy dispatch pass.  The driver callback of a device is
invoked, with irq id 0, exactly when the device asserts (INT_STATUS set,
INT_DISABLE clear), a handler is installed and the slot is not masked;
INT_DISABLE is set for an asserting device when the handler is missing, the
slot was masked, or the invoked handler returned MASK; the pass returns
RESCHEDULE iff some invoked handler requested it. -/

/-- A device is asserting: INT_STATUS set and INT_DISABLE clear. -/
def legacyAsserting (d : LegacyDev) : Bool :=
  d.status_int_sts && !d.cmd_int_disable

/-- The conditions under which the dispatch pass invokes a device's driver
callback. -/
def legacyInvokes (d : LegacyDev) : Bool :=
  legacyAsserting d && d.slot.handler.isSome && !d.slot.masked

/-- The retval governing the force-mask decision: the handler's answer when
it is invoked, the MASK default otherwise. -/
def legacyRetOf (d : LegacyDev) : IrqRetval :=
  match d.slot.handler with
  | some h => h 0
  | none => { mask := true, resched := false }

/-- The INT_DISABLE bit of a device's command register after the pass. -/
def legacyNewDisable (d : LegacyDev) : Bool :=
  d.cmd_int_disable ||
    (legacyAsserting d &&
      (!d.slot.handler.isSome || d.slot.masked || (legacyRetOf d).mask))

theorem any_map_comp {α β : Type} (l : List α) (f : α → β) (p : β → Bool) :
    (l.map f).any p = l.any (fun a => p (f a)) := by
  induction l with
  | nil => rfl
  | cons x xs ih => simp [ih]

theorem legacyServiceDev_inv (d : LegacyDev) :
    (legacyServiceDev d).2.1 =
      (if legacyInvokes d = true then some (d.id, 0) else none) := by
  unfold legacyServiceDev legacyInvokes legacyAsserting
  cases hs : d.status_int_sts <;> cases hc : d.cmd_int_disable <;>
    cases hh : d.slot.handler <;> cases hm : d.slot.masked <;>
      simp [hs, hc, hh, hm]

theorem legacyServiceDev_disable (d : LegacyDev) :
    (legacyServiceDev d).1.cmd_int_disable = legacyNewDisable d := by
  unfold legacyServiceDev legacyNewDisable legacyAsserting legacyRetOf
  cases hs : d.status_int_sts <;> cases hc : d.cmd_int_disable <;>
    cases hh : d.slot.handler <;> cases hm : d.slot.masked <;>
      simp [hs, hc, hh, hm] <;> split_ifs <;> simp_all

theorem legacyServiceDev_resched (d : LegacyDev) :
    (legacyServiceDev d).2.2 = (legacyInvokes d && (legacyRetOf d).resched) := by
  unfold legacyServiceDev legacyInvokes legacyAsserting legacyRetOf
  cases hs : d.status_int_sts <;> cases hc : d.cmd_int_disable <;>
    cases hh : d.slot.handler <;> cases hm : d.slot.masked <;>
      simp [hs, hc, hh, hm]

/-- C6: characterization of a dispatch pass over a non-empty list.  The
invocation list is exactly the asserting, unmasked devices with an installed
handler, each invoked with irq id 0, in list order; the INT_DISABLE bits
afterwards are `legacyNewDisable`; the pass reschedules iff some invoked
handler asked for it. -/
theorem c6_legacy_dispatch (s : SharedLegacyIrqHandlerState)
    (hne : s.device_handler_list ≠ []) :
    (SharedLegacyIrqHandler.Handler s).2.2 =
      s.device_handler_list.filterMap
        (fun d => if legacyInvokes d = true then some (d.id, 0) else none) ∧
    (SharedLegacyIrqHandler.Handler s).2.1.device_handler_list.map
        (fun d => d.cmd_int_disable) =
      s.device_handler_list.map legacyNewDisable ∧
    ((SharedLegacyIrqHandler.Handler s).1 = .INT_RESCHEDULE ↔
      ∃ d ∈ s.device_handler_list,
        legacyInvokes d = true ∧ (legacyRetOf d).resched = true) := by
  unfold SharedLegacyIrqHandler.Handler
  rw [if_neg (by simp [hne])]
  dsimp only
  refine ⟨?_, ?_, ?_⟩
  · rw [List.filterMap_map]
    exact List.filterMap_congr (fun d _ => legacyServiceDev_inv d)
  · rw [List.map_map, List.map_map]
    exact List.map_congr_left (fun d _ => legacyServiceDev_disable d)
  · constructor
    · intro hr
      by_cases hany : (s.device_handler_list.map legacyServiceDev).any (fun r => r.2.2) = true
      · rw [any_map_comp, List.any_eq_true] at hany
        obtain ⟨d, hd, hp⟩ := hany
        refine ⟨d, hd, ?_⟩
        rw [legacyServiceDev_resched d] at hp
        simp only [Bool.and_eq_true] at hp
        exact hp
      · rw [if_neg hany] at hr
        exact absurd hr (by simp)
    · intro ⟨d, hd, hi, hres⟩
      have hany : (s.device_handler_list.map legacyServiceDev).any (fun r => r.2.2) = true := by
        rw [any_map_comp, List.any_eq_true]
        refine ⟨d, hd, ?_⟩
        rw [legacyServiceDev_resched d, hi, hres]
        rfl
      rw [if_pos hany]

/-- A two-device dispatcher state: device 1 asserting with a handler that
requests RESCHED, device 2 not asserting. -/
def c6sys : SharedLegacyIrqHandlerState :=
  { irq_id := 5,
    device_handler_list :=
      [ { id := 1, status_int_sts := true, cmd_int_disable := false,
          slot := { handler := some (fun _ => { mask := false, resched := true }) } },
        { id := 2, status_int_sts := false, cmd_int_disable := false, slot := {} } ],
    vectorMasked := false }

/-- C6, witnessed at a concrete two-device dispatcher state (one asserting
device with a RESCHED handler, one non-asserting device). -/
theorem c6_legacy_dispatch_witness :
    (SharedLegacyIrqHandler.Handler c6sys).2.2 =
      c6sys.device_handler_list.filterMap
        (fun d => if legacyInvokes d = true then some (d.id, 0) else none) ∧
    (SharedLegacyIrqHandler.Handler c6sys).2.1.device_handler_list.map
        (fun d => d.cmd_int_disable) =
      c6sys.device_handler_list.map legacyNewDisable ∧
    ((SharedLegacyIrqHandler.Handler c6sys).1 = .INT_RESCHEDULE ↔
      ∃ d ∈ c6sys.device_handler_list,
        legacyInvokes d = true ∧ (legacyRetOf d).resched = true) :=
  c6_legacy_dispatch c6sys (by simp [c6sys])

/-! C7: the per-vector MSI dispatcher.  When no mask mechanism exists
(platform cannot mask and the device has no PVM register), the early-out
with a missing handler leaves the vector unmasked, and a handler returning
MASK cannot leave the vector masked either; the claim's "leaving the vector
masked" only holds when masking is supported. -/

/-- The locked mask primitive appends only PVM/platform mask events to the
trace, never an invocation. -/
theorem locked_invoke_mem (s : Sys) (irq_id : Nat) (mask : Bool) (j : Nat) :
    Ev.invoke j ∈ (pcie_mask_unmask_msi_irq_locked s irq_id mask).2.trace ↔
      Ev.invoke j ∈ s.trace := by
  unfold pcie_mask_unmask_msi_irq_locked
  dsimp only
  split_ifs <;> simp [emit, setSlot]

/-- An MSI-mode device with no mask mechanism at all and no registered
handler in its single slot. -/
def c7sys : Sys :=
  { dev := { mode := .MSI, handlers := [{}],
             msi := { hasCfg := true, irq_block := { allocated := true, num_irq := 1 } } },
    plat := { supports_msi_masking := false } }

/-- C7 counterexample: with no mask mechanism and no handler installed the
dispatcher returns NO_RESCHEDULE but the vector is left unmasked (the
slot's `masked` flag is false), contradicting "returns NO_RESCHEDULE
leaving the vector masked". -/
theorem c7_counterexample :
    (c7sys.plat.supports_msi_masking || c7sys.dev.msi.hasPvm) = false ∧
    (slotAt c7sys 0).handler.isNone = true ∧
    (pcie_msi_irq_handler c7sys 0).1 = .INT_NO_RESCHEDULE ∧
    (slotAt (pcie_msi_irq_handler c7sys 0).2 0).masked = false :=
  ⟨rfl, rfl, rfl, rfl⟩

/-- C7 amended: full characterization of one MSI dispatch.  Previous
`masked` is captured under the slot lock when masking is supported and is
definitionally false otherwise.  Early outs return NO_RESCHEDULE without
invoking anything, and leave the vector masked exactly when masking is
supported.  Otherwise the handler is invoked with the slot's pci irq id and
the vector ends masked iff masking is supported and the handler returned
MASK; RESCHEDULE is returned iff the handler asked. -/
theorem c7_amended (s : Sys) (irq_id : Nat)
    (hirq : irq_id < s.dev.handlers.length)
    (hid : (slotAt s irq_id).pci_irq_id = irq_id)
    (hnm : (s.plat.supports_msi_masking || s.dev.msi.hasPvm) = false →
      (slotAt s irq_id).masked = false) :
    ((s.plat.supports_msi_masking || s.dev.msi.hasPvm) = true →
      (slotAt s irq_id).masked = true →
      (pcie_msi_irq_handler s irq_id).1 = .INT_NO_RESCHEDULE ∧
      (slotAt (pcie_msi_irq_handler s irq_id).2 irq_id).masked = true ∧
      ∀ j, Ev.invoke j ∈ (pcie_msi_irq_handler s irq_id).2.trace →
        Ev.invoke j ∈ s.trace) ∧
    ((slotAt s irq_id).masked = false → (slotAt s irq_id).handler = none →
      (pcie_msi_irq_handler s irq_id).1 = .INT_NO_RESCHEDULE ∧
      (slotAt (pcie_msi_irq_handler s irq_id).2 irq_id).masked
        = (s.plat.supports_msi_masking || s.dev.msi.hasPvm) ∧
      ∀ j, Ev.invoke j ∈ (pcie_msi_irq_handler s irq_id).2.trace →
        Ev.invoke j ∈ s.trace) ∧
    (∀ f, (slotAt s irq_id).masked = false → (slotAt s irq_id).handler = some f →
      (pcie_msi_irq_handler s irq_id).1
        = (if (f irq_id).resched then .INT_RESCHEDULE else .INT_NO_RESCHEDULE) ∧
      (slotAt (pcie_msi_irq_handler s irq_id).2 irq_id).masked
        = ((s.plat.supports_msi_masking || s.dev.msi.hasPvm) && (f irq_id).mask) ∧
      Ev.invoke irq_id ∈ (pcie_msi_irq_handler s irq_id).2.trace) := by
  cases hsup : (s.plat.supports_msi_masking || s.dev.msi.hasPvm) with
  | false =>
    have hold := hnm hsup
    refine ⟨by intro hcon; exact absurd hcon (by simp), ?_, ?_⟩
    · intro _ hnone
      have hr : pcie_msi_irq_handler s irq_id = (.INT_NO_RESCHEDULE, s) := by
        unfold pcie_msi_irq_handler
        rw [hsup]
        simp [hnone]
      rw [hr]
      exact ⟨rfl, hold, fun j hj => hj⟩
    · intro f _ hsome
      cases hmret : (f irq_id).mask with
      | true =>
        have hr : pcie_msi_irq_handler s irq_id =
            ((if (f irq_id).resched then .INT_RESCHEDULE else .INT_NO_RESCHEDULE),
             emit s (Ev.invoke irq_id)) := by
          unfold pcie_msi_irq_handler
          rw [hsup]
          simp [hsome, hid, hmret]
        rw [hr]
        refine ⟨rfl, ?_, by simp [emit]⟩
        have h2 : (slotAt (emit s (Ev.invoke irq_id)) irq_id).masked
            = (slotAt s irq_id).masked := rfl
        rw [h2, hold]
        simp
      | false =>
        have hr : pcie_msi_irq_handler s irq_id =
            ((if (f irq_id).resched then .INT_RESCHEDULE else .INT_NO_RESCHEDULE),
             (pcie_mask_unmask_msi_irq_locked (emit s (Ev.invoke irq_id)) irq_id false).2) := by
          unfold pcie_msi_irq_handler
          rw [hsup]
          simp [hsome, hid, hmret]
        rw [hr]
        refine ⟨rfl, ?_, ?_⟩
        · rw [locked_slot_self _ _ _ (by simpa [emit] using hirq)]
          simp
        · rw [locked_invoke_mem]
          simp [emit]
  | true =>
    have hprev := locked_prev s irq_id true
    have hslot := locked_slot_self s irq_id true hirq
    have hlen := (locked_projs s irq_id true).2.2.2.1
    refine ⟨?_, ?_, ?_⟩
    · intro _ hold
      have hr : pcie_msi_irq_handler s irq_id =
          (.INT_NO_RESCHEDULE, (pcie_mask_unmask_msi_irq_locked s irq_id true).2) := by
        unfold pcie_msi_irq_handler
        rw [hsup]
        simp [hprev, hold]
      rw [hr]
      refine ⟨rfl, ?_, ?_⟩
      · rw [hslot]
      · intro j hj
        rwa [locked_invoke_mem] at hj
    · intro hold hnone
      have hr : pcie_msi_irq_handler s irq_id =
          (.INT_NO_RESCHEDULE, (pcie_mask_unmask_msi_irq_locked s irq_id true).2) := by
        unfold pcie_msi_irq_handler
        rw [hsup]
        simp [hprev, hold, hslot, hnone]
      rw [hr]
      refine ⟨rfl, by rw [hslot], ?_⟩
      intro j hj
      rwa [locked_invoke_mem] at hj
    · intro f hold hsome
      cases hmret : (f irq_id).mask with
      | true =>
        have hr : pcie_msi_irq_handler s irq_id =
            ((if (f irq_id).resched then .INT_RESCHEDULE else .INT_NO_RESCHEDULE),
             emit (pcie_mask_unmask_msi_irq_locked s irq_id true).2 (Ev.invoke irq_id)) := by
          unfold pcie_msi_irq_handler
          rw [hsup]
          simp [hprev, hold, hslot, hsome, hid, hmret]
        rw [hr]
        refine ⟨rfl, ?_, by simp [emit]⟩
        have h2 : (slotAt (emit (pcie_mask_unmask_msi_irq_locked s irq_id true).2
            (Ev.invoke irq_id)) irq_id).masked
            = (slotAt (pcie_mask_unmask_msi_irq_locked s irq_id true).2 irq_id).masked := rfl
        rw [h2, hslot]
        simp [hmret]
      | false =>
        have hr : pcie_msi_irq_handler s irq_id =
            ((if (f irq_id).resched then .INT_RESCHEDULE else .INT_NO_RESCHEDULE),
             (pcie_mask_unmask_msi_irq_locked
               (emit (pcie_mask_unmask_msi_irq_locked s irq_id true).2 (Ev.invoke irq_id))
               irq_id false).2) := by
          unfold pcie_msi_irq_handler
          rw [hsup]
          simp [hprev, hold, hslot, hsome, hid, hmret]
        rw [hr]
        refine ⟨rfl, ?_, ?_⟩
        · rw [locked_slot_self _ _ _ (by simpa [emit, hlen] using hirq)]
          simp [hmret]
        · rw [locked_invoke_mem]
          simp [emit]

/-- A driver callback answering MASK and RESCHED. -/
def c7fn : Nat → IrqRetval := fun _ => { mask := true, resched := true }

/-- A maskable MSI vector (PVM present, platform masking available) with
`c7fn` registered. -/
def c7wit : Sys :=
  { dev := { mode := .MSI, handlers := [{ handler := some c7fn }],
             msi := { hasCfg := true, hasPvm := true,
                      irq_block := { allocated := true, num_irq := 1 } } } }

/-- C7 amended, witnessed at a concrete input: a maskable vector whose
handler returns MASK and RESCHED. -/
theorem c7_amended_witness :
    (pcie_msi_irq_handler c7wit 0).1
      = (if (c7fn 0).resched then HandlerReturn.INT_RESCHEDULE
         else HandlerReturn.INT_NO_RESCHEDULE) ∧
    (slotAt (pcie_msi_irq_handler c7wit 0).2 0).masked
      = ((c7wit.plat.supports_msi_masking || c7wit.dev.msi.hasPvm) && (c7fn 0).mask) ∧
    Ev.invoke 0 ∈ (pcie_msi_irq_handler c7wit 0).2.trace :=
  (c7_amended c7wit 0 (by decide) rfl (fun _ => rfl)).2.2 c7fn rfl rfl

/-! C1: failures inside enter-MSI unwind through the DISABLED transition.
Helper lemmas about the free-block loop and the leave path. -/

theorem free_step_dev_plat (t : Sys) (i : Nat) :
    (pcie_free_msi_step t i).dev = t.dev ∧ (pcie_free_msi_step t i).plat = t.plat := by
  unfold pcie_free_msi_step
  dsimp only
  split_ifs <;> exact ⟨rfl, rfl⟩

theorem free_fold_dev_plat (l : List Nat) (t : Sys) :
    ((l.foldl pcie_free_msi_step t).dev = t.dev) ∧
    ((l.foldl pcie_free_msi_step t).plat = t.plat) := by
  induction l generalizing t with
  | nil => exact ⟨rfl, rfl⟩
  | cons i l ih =>
    rw [List.foldl_cons]
    exact ⟨(ih _).1.trans (free_step_dev_plat t i).1,
           (ih _).2.trans (free_step_dev_plat t i).2⟩

theorem free_step_masked_mono (t : Sys) (i j : Nat) (h : t.platMasked j = true) :
    (pcie_free_msi_step t i).platMasked j = true := by
  unfold pcie_free_msi_step
  dsimp only
  split_ifs with hs
  · by_cases hj : j = i <;> simp [emit, hj, h]
  · exact h

theorem free_step_masked_self (t : Sys) (i : Nat)
    (hm : t.plat.supports_msi_masking = true) :
    (pcie_free_msi_step t i).platMasked i = true := by
  unfold pcie_free_msi_step
  dsimp only
  rw [if_pos hm]
  simp [emit]

theorem free_fold_masked_mono (l : List Nat) (t : Sys) (j : Nat)
    (h : t.platMasked j = true) :
    ((l.foldl pcie_free_msi_step t).platMasked j = true) := by
  induction l generalizing t with
  | nil => exact h
  | cons i l ih =>
    rw [List.foldl_cons]
    exact ih _ (free_step_masked_mono t i j h)

theorem free_fold_masked (l : List Nat) (t : Sys) (j : Nat)
    (hm : t.plat.supports_msi_masking = true) (hj : j ∈ l) :
    ((l.foldl pcie_free_msi_step t).platMasked j = true) := by
  induction l generalizing t with
  | nil => cases hj
  | cons i l ih =>
    rw [List.foldl_cons]
    rcases List.mem_cons.1 hj with rfl | hj2
    · exact free_fold_masked_mono l _ j (free_step_masked_self t j hm)
    · exact ih _ (by rw [(free_step_dev_plat t i).2]; exact hm) hj2

/-- Unwinding properties of `pcie_free_msi_block`. -/
theorem free_block_unwinds (t : Sys) :
    (pcie_free_msi_block t).dev.mode = t.dev.mode ∧
    (pcie_free_msi_block t).dev.handlers = t.dev.handlers ∧
    (pcie_free_msi_block t).dev.msi.irq_block.allocated = false ∧
    (pcie_free_msi_block t).dev.msi.cfg = t.dev.msi.cfg ∧
    (pcie_free_msi_block t).dev.msi.pvmMask = t.dev.msi.pvmMask ∧
    (pcie_free_msi_block t).dev.msi.hasPvm = t.dev.msi.hasPvm ∧
    (t.dev.msi.irq_block.allocated = true → t.plat.supports_msi_masking = true →
      ∀ i, i < t.dev.msi.irq_block.num_irq →
        (pcie_free_msi_block t).platMasked i = true) := by
  unfold pcie_free_msi_block
  by_cases ha : t.dev.msi.irq_block.allocated
  · rw [if_neg (by simp [ha])]
    have hd := free_fold_dev_plat (List.range t.dev.msi.irq_block.num_irq) t
    refine ⟨?_, ?_, ?_, ?_, ?_, ?_, ?_⟩
    · simp only [emit]
      rw [hd.1]
    · simp only [emit]
      rw [hd.1]
    · rfl
    · simp only [emit]
      rw [hd.1]
    · simp only [emit]
      rw [hd.1]
    · simp only [emit]
      rw [hd.1]
    · intro _ hm i hi
      show ((List.range t.dev.msi.irq_block.num_irq).foldl pcie_free_msi_step t).platMasked i
        = true
      exact free_fold_masked _ t i hm (List.mem_range.2 hi)
  · rw [if_pos (by simp [ha])]
    refine ⟨rfl, rfl, ?_, rfl, rfl, rfl, ?_⟩
    · simpa using ha
    · intro hcon
      exact absurd hcon (by simpa using ha)

/-- Properties of `pcie_set_msi_target` on a device with an empty handler
table (the state of both failing enter-MSI paths): ENABLE is left 0, the PVM
register is left all ones when present, and everything except the MSI
config registers and the trace is untouched. -/
theorem set_msi_target_empty (t : Sys) (hh : t.dev.handlers = []) (a d : Nat) :
    (pcie_set_msi_target t a d).dev.msi.cfg.enb = false ∧
    (pcie_set_msi_target t a d).dev.handlers = [] ∧
    (pcie_set_msi_target t a d).dev.msi.irq_block = t.dev.msi.irq_block ∧
    (pcie_set_msi_target t a d).dev.msi.hasPvm = t.dev.msi.hasPvm ∧
    (pcie_set_msi_target t a d).dev.mode = t.dev.mode ∧
    (pcie_set_msi_target t a d).plat = t.plat ∧
    (pcie_set_msi_target t a d).platMasked = t.platMasked ∧
    (t.dev.msi.hasPvm = true →
      (pcie_set_msi_target t a d).dev.msi.pvmMask = 0xFFFFFFFF) := by
  unfold pcie_set_msi_target pcie_set_msi_target_regs pcie_mask_all_msi_vectors
    pcie_set_msi_enb
  simp only [emit, hh]
  dsimp only [List.length_nil, List.range_zero, List.foldl_nil]
  split_ifs <;> simp_all [emit]

/-- The DISABLED transition out of MSI mode, taken from a state whose
handler table is already empty (the state of both failing enter-MSI paths),
fully unwinds: mode DISABLED, no handlers, no block, ENABLE clear, PVM
register all ones when present, and all block vectors masked at the
platform when it supports masking. -/
theorem leave_msi_unwinds (t : Sys) (hh : t.dev.handlers = []) :
    (pcie_leave_msi_irq_mode t).dev.mode = .DISABLED ∧
    (pcie_leave_msi_irq_mode t).dev.handlers = [] ∧
    (pcie_leave_msi_irq_mode t).dev.msi.irq_block.allocated = false ∧
    (pcie_leave_msi_irq_mode t).dev.msi.cfg.enb = false ∧
    (t.dev.msi.hasPvm = true →
      (pcie_leave_msi_irq_mode t).dev.msi.pvmMask = 0xFFFFFFFF) ∧
    (t.dev.msi.irq_block.allocated = true → t.plat.supports_msi_masking = true →
      ∀ i, i < t.dev.msi.irq_block.num_irq →
        (pcie_leave_msi_irq_mode t).platMasked i = true) := by
  have hu := set_msi_target_empty t hh 0 0
  have hv := free_block_unwinds (pcie_set_msi_target t 0 0)
  unfold pcie_leave_msi_irq_mode pcie_reset_common_irq_bookkeeping
  refine ⟨rfl, rfl, ?_, ?_, ?_, ?_⟩
  · exact hv.2.2.1
  · show (pcie_free_msi_block (pcie_set_msi_target t 0 0)).dev.msi.cfg.enb = false
    rw [hv.2.2.2.1]
    exact hu.1
  · intro hp
    show (pcie_free_msi_block (pcie_set_msi_target t 0 0)).dev.msi.pvmMask = 0xFFFFFFFF
    rw [hv.2.2.2.2.1]
    exact hu.2.2.2.2.2.2.2 hp
  · intro ha hm i hi
    show (pcie_free_msi_block (pcie_set_msi_target t 0 0)).platMasked i = true
    refine hv.2.2.2.2.2.2 ?_ ?_ i ?_
    · rw [hu.2.2.1]
      exact ha
    · rw [hu.2.2.2.2.2.1]
      exact hm
    · rw [hu.2.2.1]
      exact hi

/-- C1: when `set_mode(MSI, n)` on a plugged-in, fully DISABLED, MSI-capable
device fails at the platform block allocation or at the handler-table
allocation, the failing step's error is returned and the device is fully
unwound: mode DISABLED, handler table gone, no block held, MSI ENABLE bit
clear, PVM register all ones (when present) and the allocated block's
vectors masked at the platform (when it supports masking). -/
theorem c1_enter_msi_failure_unwinds (allocOk : Bool) (s : Sys) (n : Nat)
    (hplug : s.dev.plugged_in = true) (hdis : s.dev.disabled = false)
    (hmode : s.dev.mode = .DISABLED)
    (hh : s.dev.handlers = [])
    (hblk : s.dev.msi.irq_block.allocated = false)
    (hcfg : s.dev.msi.hasCfg = true) (hmsi : s.plat.supports_msi = true)
    (hn1 : 1 ≤ n) (hnm : n ≤ s.dev.msi.max_irqs)
    (hfail : s.plat.alloc_res ≠ .NO_ERROR ∨ (n ≠ 1 ∧ allocOk = false)) :
    (pcie_set_irq_mode allocOk s .MSI n).1 =
      (if s.plat.alloc_res ≠ .NO_ERROR then s.plat.alloc_res else .ERR_NO_MEMORY) ∧
    (pcie_set_irq_mode allocOk s .MSI n).1 ≠ .NO_ERROR ∧
    (pcie_set_irq_mode allocOk s .MSI n).2.dev.mode = .DISABLED ∧
    (pcie_set_irq_mode allocOk s .MSI n).2.dev.handlers = [] ∧
    (pcie_set_irq_mode allocOk s .MSI n).2.dev.msi.irq_block.allocated = false ∧
    (pcie_set_irq_mode allocOk s .MSI n).2.dev.msi.cfg.enb = false ∧
    (s.dev.msi.hasPvm = true →
      (pcie_set_irq_mode allocOk s .MSI n).2.dev.msi.pvmMask = 0xFFFFFFFF) ∧
    (s.plat.alloc_res = .NO_ERROR → s.plat.supports_msi_masking = true →
      ∀ i, i < s.plat.alloc_block.num_irq →
        (pcie_set_irq_mode allocOk s .MSI n).2.platMasked i = true) := by
  have hstep : pcie_set_irq_mode allocOk s .MSI n = pcie_enter_msi_irq_mode allocOk s n := by
    unfold pcie_set_irq_mode pcie_set_irq_mode_internal
    rw [if_pos (Or.inr (by simp [hplug, hdis]))]
    rw [if_neg (by simp)]
    rw [if_neg (by omega)]
    rw [if_neg (by simp [hmode])]
  rw [hstep]
  unfold pcie_enter_msi_irq_mode
  rw [if_neg (by simp [hcfg, hmsi]; omega)]
  by_cases halloc : s.plat.alloc_res = .NO_ERROR
  · rcases hfail with hfa | ⟨hne1, hca⟩
    · exact absurd halloc hfa
    rw [if_neg (by simp [halloc])]
    dsimp only
    have halloc2 : pcie_alloc_irq_handlers allocOk
        { s with dev.msi.irq_block := { s.plat.alloc_block with allocated := true } } n =
        (.ERR_NO_MEMORY,
         { s with dev.msi.irq_block := { s.plat.alloc_block with allocated := true } }) := by
      unfold pcie_alloc_irq_handlers
      rw [if_neg hne1, if_pos (by simp [hca])]
    rw [halloc2]
    rw [if_pos (by simp)]
    have hl := leave_msi_unwinds
      { s with dev.msi.irq_block := { s.plat.alloc_block with allocated := true } }
      (by exact hh)
    refine ⟨by simp [halloc], by simp, hl.1, hl.2.1, hl.2.2.1, hl.2.2.2.1, ?_, ?_⟩
    · intro hp
      exact hl.2.2.2.2.1 hp
    · intro _ hm i hi
      exact hl.2.2.2.2.2 rfl hm i hi
  · rw [if_pos (by simp [halloc])]
    have hl := leave_msi_unwinds s hh
    refine ⟨by simp [halloc], by simp [halloc], hl.1, hl.2.1, hl.2.2.1, hl.2.2.2.1, ?_, ?_⟩
    · intro hp
      exact hl.2.2.2.2.1 hp
    · intro hcon
      exact absurd hcon halloc

/-- An MSI-capable DISABLED device whose platform grants a block of 4
vectors. -/
def c1wit : Sys :=
  { dev := { msi := { hasCfg := true, max_irqs := 8, hasPvm := true } },
    plat := { alloc_block := { num_irq := 4, tgt_addr := 0xFEE00000, tgt_data := 0x41 } } }

/-- C1, witnessed at concrete inputs (handler-table allocation failure after
a successful platform block allocation of 4 vectors). -/
theorem c1_enter_msi_failure_unwinds_witness :
    (pcie_set_irq_mode false c1wit .MSI 4).1 =
      (if c1wit.plat.alloc_res ≠ .NO_ERROR then c1wit.plat.alloc_res
       else .ERR_NO_MEMORY) ∧
    (pcie_set_irq_mode false c1wit .MSI 4).1 ≠ .NO_ERROR ∧
    (pcie_set_irq_mode false c1wit .MSI 4).2.dev.mode = .DISABLED ∧
    (pcie_set_irq_mode false c1wit .MSI 4).2.dev.handlers = [] ∧
    (pcie_set_irq_mode false c1wit .MSI 4).2.dev.msi.irq_block.allocated = false ∧
    (pcie_set_irq_mode false c1wit .MSI 4).2.dev.msi.cfg.enb = false ∧
    (c1wit.dev.msi.hasPvm = true →
      (pcie_set_irq_mode false c1wit .MSI 4).2.dev.msi.pvmMask = 0xFFFFFFFF) ∧
    (c1wit.plat.alloc_res = .NO_ERROR → c1wit.plat.supports_msi_masking = true →
      ∀ i, i < c1wit.plat.alloc_block.num_irq →
        (pcie_set_irq_mode false c1wit .MSI 4).2.platMasked i = true) :=
  c1_enter_msi_failure_unwinds false c1wit 4 rfl rfl rfl rfl rfl rfl rfl
    (by decide) (by decide) (Or.inr ⟨by decide, rfl⟩)

/-! C4: the register-programming order of a successful enter-MSI.
Lemmas about the mask-all loop and the handler-registration loop. -/

theorem masked_getD_set_mono (l : List pcie_irq_handler_state_t) (t j : Nat)
    (h : pcie_irq_handler_state_t) (hm : h.masked = true)
    (hj : (l.getD j {}).masked = true) :
    ((l.set t h).getD j {}).masked = true := by
  induction l generalizing t j with
  | nil => simpa using hj
  | cons x xs ih =>
    cases t with
    | zero =>
      cases j with
      | zero => exact hm
      | succ m => exact hj
    | succ m =>
      cases j with
      | zero => exact hj
      | succ k => exact ih m k hj

theorem mask_step_projs (t : Sys) (i : Nat) :
    (pcie_msi_mask_step t i).plat = t.plat ∧
    (pcie_msi_mask_step t i).dev.msi.hasPvm = t.dev.msi.hasPvm ∧
    (pcie_msi_mask_step t i).dev.msi.is64bit = t.dev.msi.is64bit ∧
    (pcie_msi_mask_step t i).dev.msi.cfg = t.dev.msi.cfg ∧
    (pcie_msi_mask_step t i).dev.msi.irq_block = t.dev.msi.irq_block ∧
    (pcie_msi_mask_step t i).dev.mode = t.dev.mode ∧
    (pcie_msi_mask_step t i).dev.handlers.length = t.dev.handlers.length ∧
    (pcie_msi_mask_step t i).platHandler = t.platHandler := by
  unfold pcie_msi_mask_step pcie_mask_unmask_msi_irq pcie_mask_unmask_msi_irq_locked
  dsimp only
  split_ifs <;>
    exact ⟨rfl, rfl, rfl, rfl, rfl, rfl, by simp [setSlot, emit], rfl⟩

theorem mask_fold_projs (l : List Nat) (t : Sys) :
    ((l.foldl pcie_msi_mask_step t).plat = t.plat) ∧
    ((l.foldl pcie_msi_mask_step t).dev.msi.hasPvm = t.dev.msi.hasPvm) ∧
    ((l.foldl pcie_msi_mask_step t).dev.msi.is64bit = t.dev.msi.is64bit) ∧
    ((l.foldl pcie_msi_mask_step t).dev.msi.cfg = t.dev.msi.cfg) ∧
    ((l.foldl pcie_msi_mask_step t).dev.msi.irq_block = t.dev.msi.irq_block) ∧
    ((l.foldl pcie_msi_mask_step t).dev.mode = t.dev.mode) ∧
    ((l.foldl pcie_msi_mask_step t).dev.handlers.length = t.dev.handlers.length) ∧
    ((l.foldl pcie_msi_mask_step t).platHandler = t.platHandler) := by
  induction l generalizing t with
  | nil => exact ⟨rfl, rfl, rfl, rfl, rfl, rfl, rfl, rfl⟩
  | cons i l ih =>
    rw [List.foldl_cons]
    have hs := mask_step_projs t i
    have hf := ih (pcie_msi_mask_step t i)
    exact ⟨hf.1.trans hs.1, hf.2.1.trans hs.2.1, hf.2.2.1.trans hs.2.2.1,
      hf.2.2.2.1.trans hs.2.2.2.1, hf.2.2.2.2.1.trans hs.2.2.2.2.1,
      hf.2.2.2.2.2.1.trans hs.2.2.2.2.2.1,
      hf.2.2.2.2.2.2.1.trans hs.2.2.2.2.2.2.1,
      hf.2.2.2.2.2.2.2.trans hs.2.2.2.2.2.2.2⟩

/-- One mask-all iteration appends only mask events to the trace; when the
platform supports masking and the index is in range, its platform mask event
is among them. -/
theorem mask_step_trace (t : Sys) (i : Nat) (hi : i < t.dev.handlers.length) :
    ∃ m, (pcie_msi_mask_step t i).trace = t.trace ++ m ∧
      (∀ e ∈ m, (∃ v, e = Ev.writePvmReg v) ∨ ∃ j, e = Ev.platMaskMsi j true) ∧
      (t.plat.supports_msi_masking = true → Ev.platMaskMsi i true ∈ m) := by
  unfold pcie_msi_mask_step pcie_mask_unmask_msi_irq
  rw [if_neg (by omega)]
  by_cases hgate : (true && !t.plat.supports_msi_masking && !t.dev.msi.hasPvm) = true
  · rw [if_pos hgate]
    refine ⟨[], by simp, by simp, ?_⟩
    intro hm
    simp [hm] at hgate
  · rw [if_neg hgate]
    unfold pcie_mask_unmask_msi_irq_locked
    dsimp only
    by_cases hp : t.dev.msi.hasPvm = true
    · rw [if_pos hp]
      by_cases hm : t.plat.supports_msi_masking = true
      · rw [if_pos (by simp [emit, hm])]
        refine ⟨[Ev.writePvmReg (t.dev.msi.pvmMask ||| 1 <<< i), Ev.platMaskMsi i true],
          ?_, ?_, ?_⟩
        · simp [setSlot, emit]
        · intro e he
          rcases List.mem_cons.1 he with rfl | he
          · exact Or.inl ⟨_, rfl⟩
          · rcases List.mem_cons.1 he with rfl | he
            · exact Or.inr ⟨_, rfl⟩
            · cases he
        · intro _
          simp
      · rw [if_neg (by exact hm)]
        refine ⟨[Ev.writePvmReg (t.dev.msi.pvmMask ||| 1 <<< i)], ?_, ?_, ?_⟩
        · simp [setSlot, emit]
        · intro e he
          rcases List.mem_cons.1 he with rfl | he
          · exact Or.inl ⟨_, rfl⟩
          · cases he
        · intro hcon
          exact absurd hcon hm
    · rw [if_neg hp]
      have hm : t.plat.supports_msi_masking = true := by
        cases hmm : t.plat.supports_msi_masking
        · exfalso
          apply hgate
          simp [hmm]
          cases hpp : t.dev.msi.hasPvm
          · rfl
          · exact absurd hpp hp
        · rfl
      rw [if_pos hm]
      refine ⟨[Ev.platMaskMsi i true], ?_, ?_, ?_⟩
      · simp [setSlot, emit]
      · intro e he
        rcases List.mem_cons.1 he with rfl | he
        · exact Or.inr ⟨_, rfl⟩
        · cases he
      · intro _
        simp

theorem mask_fold_trace (l : List Nat) (t : Sys)
    (hl : ∀ i ∈ l, i < t.dev.handlers.length) :
    ∃ M, ((l.foldl pcie_msi_mask_step t).trace = t.trace ++ M) ∧
      (∀ e ∈ M, (∃ v, e = Ev.writePvmReg v) ∨ ∃ j, e = Ev.platMaskMsi j true) ∧
      (t.plat.supports_msi_masking = true → ∀ i ∈ l, Ev.platMaskMsi i true ∈ M) := by
  induction l generalizing t with
  | nil => exact ⟨[], by simp, by simp, by simp⟩
  | cons i l ih =>
    rw [List.foldl_cons]
    obtain ⟨m0, hm0, hm0ev, hm0mem⟩ := mask_step_trace t i (hl i (List.mem_cons_self i l))
    obtain ⟨M1, hM1, hM1ev, hM1mem⟩ := ih (pcie_msi_mask_step t i)
      (by intro j hj
          rw [(mask_step_projs t i).2.2.2.2.2.2.1]
          exact hl j (List.mem_cons_of_mem i hj))
    refine ⟨m0 ++ M1, ?_, ?_, ?_⟩
    · rw [hM1, hm0, List.append_assoc]
    · intro e he
      rcases List.mem_append.1 he with he | he
      · exact hm0ev e he
      · exact hM1ev e he
    · intro hsup j hj
      rcases List.mem_cons.1 hj with rfl | hj
      · exact List.mem_append.2 (Or.inl (hm0mem hsup))
      · exact List.mem_append.2 (Or.inr
          (hM1mem (by rw [(mask_step_projs t i).1]; exact hsup) j hj))

theorem mask_step_slot_mono (t : Sys) (i j : Nat)
    (hj : (slotAt t j).masked = true) :
    (slotAt (pcie_msi_mask_step t i) j).masked = true := by
  unfold pcie_msi_mask_step pcie_mask_unmask_msi_irq pcie_mask_unmask_msi_irq_locked
  dsimp only
  split_ifs <;>
    first
    | exact hj
    | exact masked_getD_set_mono _ _ _ _ rfl hj

theorem mask_step_slot_self (t : Sys) (i : Nat)
    (hmech : (t.plat.supports_msi_masking || t.dev.msi.hasPvm) = true)
    (hi : i < t.dev.handlers.length) :
    (slotAt (pcie_msi_mask_step t i) i).masked = true := by
  unfold pcie_msi_mask_step pcie_mask_unmask_msi_irq
  rw [if_neg (by omega)]
  rw [if_neg (by cases hs : t.plat.supports_msi_masking <;> simp_all)]
  rw [locked_slot_self _ _ _ hi]

theorem mask_fold_slot_mono (l : List Nat) (t : Sys) (j : Nat)
    (hj : (slotAt t j).masked = true) :
    (slotAt (l.foldl pcie_msi_mask_step t) j).masked = true := by
  induction l generalizing t with
  | nil => exact hj
  | cons i l ih =>
    rw [List.foldl_cons]
    exact ih _ (mask_step_slot_mono t i j hj)

theorem mask_fold_slot (l : List Nat) (t : Sys) (j : Nat)
    (hmech : (t.plat.supports_msi_masking || t.dev.msi.hasPvm) = true)
    (hl : ∀ i ∈ l, i < t.dev.handlers.length) (hj : j ∈ l) :
    (slotAt (l.foldl pcie_msi_mask_step t) j).masked = true := by
  induction l generalizing t with
  | nil => cases hj
  | cons i l ih =>
    rw [List.foldl_cons]
    rcases List.mem_cons.1 hj with rfl | hj2
    · exact mask_fold_slot_mono l _ j
        (mask_step_slot_self t j hmech (hl j (List.mem_cons_self j l)))
    · refine ih _ ?_ ?_ hj2
      · rw [(mask_step_projs t i).1, (mask_step_projs t i).2.1]
        exact hmech
      · intro k hk
        rw [(mask_step_projs t i).2.2.2.2.2.2.1]
        exact hl k (List.mem_cons_of_mem i hk)

theorem reg_step_projs (t : Sys) (i : Nat) :
    (pcie_msi_reg_step t i).dev = t.dev ∧
    (pcie_msi_reg_step t i).plat = t.plat ∧
    (pcie_msi_reg_step t i).platMasked = t.platMasked ∧
    (pcie_msi_reg_step t i).trace = t.trace ++ [Ev.regMsiHandler i true] := by
  exact ⟨rfl, rfl, rfl, rfl⟩

theorem reg_fold_projs (l : List Nat) (t : Sys) :
    ((l.foldl pcie_msi_reg_step t).dev = t.dev) ∧
    ((l.foldl pcie_msi_reg_step t).plat = t.plat) ∧
    ((l.foldl pcie_msi_reg_step t).platMasked = t.platMasked) ∧
    ((l.foldl pcie_msi_reg_step t).trace
      = t.trace ++ l.map (fun i => Ev.regMsiHandler i true)) := by
  induction l generalizing t with
  | nil => exact ⟨rfl, rfl, rfl, by simp⟩
  | cons i l ih =>
    rw [List.foldl_cons]
    have hf := ih (pcie_msi_reg_step t i)
    refine ⟨hf.1, hf.2.1, hf.2.2.1, ?_⟩
    rw [hf.2.2.2]
    show (t.trace ++ [Ev.regMsiHandler i true]) ++ _ = _
    rw [List.append_assoc]
    rfl

theorem reg_step_handler_mono (t : Sys) (i j : Nat)
    (hj : t.platHandler j = true) :
    (pcie_msi_reg_step t i).platHandler j = true := by
  unfold pcie_msi_reg_step
  by_cases h : j = i <;> simp [emit, h, hj]

theorem reg_fold_handler_mono (l : List Nat) (t : Sys) (j : Nat)
    (hj : t.platHandler j = true) :
    ((l.foldl pcie_msi_reg_step t).platHandler j = true) := by
  induction l generalizing t with
  | nil => exact hj
  | cons i l ih =>
    rw [List.foldl_cons]
    exact ih _ (reg_step_handler_mono t i j hj)

theorem reg_fold_handler (l : List Nat) (t : Sys) (j : Nat) (hj : j ∈ l) :
    ((l.foldl pcie_msi_reg_step t).platHandler j = true) := by
  induction l generalizing t with
  | nil => cases hj
  | cons i l ih =>
    rw [List.foldl_cons]
    rcases List.mem_cons.1 hj with rfl | hj2
    · exact reg_fold_handler_mono l _ j (by unfold pcie_msi_reg_step; simp [emit])
    · exact ih _ hj2

/-- Behaviour of `pcie_set_msi_target`: ENABLE is written 0 first, then only
mask writes happen (every vector receives a platform mask event when the
platform supports masking; the PVM register ends all ones when present; every
slot's `masked` flag is set when any mask mechanism exists), then the low
address bits, then (only on a 64-bit device) the upper address bits, then the
data register at the offset of the chosen layout. -/
theorem set_msi_enb_projs (t : Sys) (b : Bool) :
    (pcie_set_msi_enb t b).trace = t.trace ++ [Ev.writeEnb b] ∧
    (pcie_set_msi_enb t b).dev.msi.cfg.enb = b ∧
    (pcie_set_msi_enb t b).dev.msi.cfg.mme = t.dev.msi.cfg.mme ∧
    (pcie_set_msi_enb t b).dev.handlers = t.dev.handlers ∧
    (pcie_set_msi_enb t b).dev.mode = t.dev.mode ∧
    (pcie_set_msi_enb t b).dev.msi.hasPvm = t.dev.msi.hasPvm ∧
    (pcie_set_msi_enb t b).dev.msi.is64bit = t.dev.msi.is64bit ∧
    (pcie_set_msi_enb t b).dev.msi.irq_block = t.dev.msi.irq_block ∧
    (pcie_set_msi_enb t b).plat = t.plat ∧
    (pcie_set_msi_enb t b).platHandler = t.platHandler ∧
    (pcie_set_msi_enb t b).dev.msi.pvmMask = t.dev.msi.pvmMask :=
  ⟨rfl, rfl, rfl, rfl, rfl, rfl, rfl, rfl, rfl, rfl, rfl⟩

/-- Behaviour of `pcie_mask_all_msi_vectors`: only mask events are emitted,
every vector index below handler_count receives a platform mask event when
the platform supports masking, every slot's `masked` flag is set when a mask
mechanism exists, and the PVM register ends all ones when present; nothing
else changes. -/
theorem mask_all_spec (t : Sys) :
    ∃ M, ((pcie_mask_all_msi_vectors t).trace = t.trace ++ M) ∧
      (∀ e ∈ M, (∃ v, e = Ev.writePvmReg v) ∨ ∃ j, e = Ev.platMaskMsi j true) ∧
      (t.plat.supports_msi_masking = true →
        ∀ i, i < t.dev.handlers.length → Ev.platMaskMsi i true ∈ M) ∧
      ((t.plat.supports_msi_masking || t.dev.msi.hasPvm) = true →
        ∀ i, i < t.dev.handlers.length →
          (slotAt (pcie_mask_all_msi_vectors t) i).masked = true) ∧
      (t.dev.msi.hasPvm = true →
        (pcie_mask_all_msi_vectors t).dev.msi.pvmMask = 0xFFFFFFFF) ∧
      (pcie_mask_all_msi_vectors t).dev.msi.cfg = t.dev.msi.cfg ∧
      (pcie_mask_all_msi_vectors t).dev.handlers.length = t.dev.handlers.length ∧
      (pcie_mask_all_msi_vectors t).dev.mode = t.dev.mode ∧
      (pcie_mask_all_msi_vectors t).dev.msi.is64bit = t.dev.msi.is64bit ∧
      (pcie_mask_all_msi_vectors t).dev.msi.irq_block = t.dev.msi.irq_block ∧
      (pcie_mask_all_msi_vectors t).plat = t.plat ∧
      (pcie_mask_all_msi_vectors t).platHandler = t.platHandler := by
  obtain ⟨M0, hM0, hM0ev, hM0mem⟩ := mask_fold_trace (List.range t.dev.handlers.length) t
    (fun i hi => List.mem_range.1 hi)
  have hfp := mask_fold_projs (List.range t.dev.handlers.length) t
  have hsl : (t.plat.supports_msi_masking || t.dev.msi.hasPvm) = true →
      ∀ i, i < t.dev.handlers.length →
        (slotAt ((List.range t.dev.handlers.length).foldl pcie_msi_mask_step t) i).masked
          = true :=
    fun hmech i hi => mask_fold_slot _ _ i hmech (fun j hj => List.mem_range.1 hj)
      (List.mem_range.2 hi)
  unfold pcie_mask_all_msi_vectors
  dsimp only
  by_cases hp : t.dev.msi.hasPvm = true
  · rw [if_pos (by rw [hfp.2.1]; exact hp)]
    refine ⟨M0 ++ [Ev.writePvmReg 0xFFFFFFFF], ?_, ?_, ?_,
      (fun hmech i hi => hsl hmech i hi), (fun _ => rfl),
      hfp.2.2.2.1, hfp.2.2.2.2.2.2.1, hfp.2.2.2.2.2.1, hfp.2.2.1,
      hfp.2.2.2.2.1, hfp.1, hfp.2.2.2.2.2.2.2⟩
    · simp [emit, hM0, List.append_assoc]
    · intro e he
      rcases List.mem_append.1 he with he | he
      · exact hM0ev e he
      · rcases List.mem_cons.1 he with rfl | he
        · exact Or.inl ⟨_, rfl⟩
        · cases he
    · intro hsup i hi
      exact List.mem_append.2 (Or.inl (hM0mem hsup i (List.mem_range.2 hi)))
  · rw [if_neg (by rw [hfp.2.1]; exact hp)]
    refine ⟨M0, hM0, hM0ev, ?_,
      (fun hmech i hi => hsl hmech i hi), (fun hcon => absurd hcon hp),
      hfp.2.2.2.1, hfp.2.2.2.2.2.2.1, hfp.2.2.2.2.2.1, hfp.2.2.1,
      hfp.2.2.2.2.1, hfp.1, hfp.2.2.2.2.2.2.2⟩
    intro hsup i hi
    exact hM0mem hsup i (List.mem_range.2 hi)

/-- Behaviour of the address/data write tail: the low address bits are
written first, then on a 64-bit device the upper bits and the 64-bit-layout
data register, else the 32-bit-layout data register; nothing else changes. -/
theorem target_regs_spec (t : Sys) (a d : Nat) :
    (pcie_set_msi_target_regs t a d).trace
      = t.trace ++ [Ev.writeAddr (a % 2 ^ 32)]
        ++ (if t.dev.msi.is64bit = true then
              [Ev.writeAddrUpper (a / 2 ^ 32), Ev.writeData64 (d % 2 ^ 16)]
            else [Ev.writeData32 (d % 2 ^ 16)]) ∧
    (pcie_set_msi_target_regs t a d).dev.msi.cfg.enb = t.dev.msi.cfg.enb ∧
    (pcie_set_msi_target_regs t a d).dev.msi.cfg.mme = t.dev.msi.cfg.mme ∧
    (pcie_set_msi_target_regs t a d).dev.handlers = t.dev.handlers ∧
    (pcie_set_msi_target_regs t a d).dev.mode = t.dev.mode ∧
    (pcie_set_msi_target_regs t a d).dev.msi.pvmMask = t.dev.msi.pvmMask ∧
    (pcie_set_msi_target_regs t a d).dev.msi.irq_block = t.dev.msi.irq_block ∧
    (pcie_set_msi_target_regs t a d).plat = t.plat ∧
    (pcie_set_msi_target_regs t a d).platHandler = t.platHandler := by
  unfold pcie_set_msi_target_regs
  dsimp only
  by_cases h64 : t.dev.msi.is64bit = true
  · rw [if_pos (by exact h64)]
    exact ⟨by simp [emit, h64, List.append_assoc], rfl, rfl, rfl, rfl, rfl, rfl, rfl, rfl⟩
  · rw [if_neg (by exact h64)]
    exact ⟨by simp [emit, h64, List.append_assoc], rfl, rfl, rfl, rfl, rfl, rfl, rfl, rfl⟩

/-- Behaviour of `pcie_set_msi_target`: ENABLE is written 0 first, then only
mask writes happen (every vector receives a platform mask event when the
platform supports masking; the PVM register ends all ones when present;
every slot's `masked` flag is set when any mask mechanism exists), then the
low address bits, then (only on a 64-bit device) the upper address bits,
then the data register at the offset of the chosen layout. -/
theorem set_msi_target_spec (t : Sys) (a d : Nat) :
    ∃ M, ((pcie_set_msi_target t a d).trace
        = t.trace ++ [Ev.writeEnb false] ++ M ++ [Ev.writeAddr (a % 2 ^ 32)]
          ++ (if t.dev.msi.is64bit = true then
                [Ev.writeAddrUpper (a / 2 ^ 32), Ev.writeData64 (d % 2 ^ 16)]
              else [Ev.writeData32 (d % 2 ^ 16)])) ∧
      (∀ e ∈ M, (∃ v, e = Ev.writePvmReg v) ∨ ∃ j, e = Ev.platMaskMsi j true) ∧
      (t.plat.supports_msi_masking = true →
        ∀ i, i < t.dev.handlers.length → Ev.platMaskMsi i true ∈ M) ∧
      ((t.plat.supports_msi_masking || t.dev.msi.hasPvm) = true →
        ∀ i, i < t.dev.handlers.length →
          (slotAt (pcie_set_msi_target t a d) i).masked = true) ∧
      (t.dev.msi.hasPvm = true →
        (pcie_set_msi_target t a d).dev.msi.pvmMask = 0xFFFFFFFF) ∧
      (pcie_set_msi_target t a d).dev.msi.cfg.enb = false ∧
      (pcie_set_msi_target t a d).dev.msi.cfg.mme = t.dev.msi.cfg.mme ∧
      (pcie_set_msi_target t a d).dev.handlers.length = t.dev.handlers.length ∧
      (pcie_set_msi_target t a d).dev.mode = t.dev.mode ∧
      (pcie_set_msi_target t a d).plat = t.plat ∧
      (pcie_set_msi_target t a d).platHandler = t.platHandler ∧
      (pcie_set_msi_target t a d).dev.msi.irq_block = t.dev.msi.irq_block := by
  have he := set_msi_enb_projs t false
  obtain ⟨M, hM, hMev, hMmem, hMsl, hMpvm, hMcfg, hMlen, hMmode, hM64, hMblk,
    hMplat, hMph⟩ := mask_all_spec (pcie_set_msi_enb t false)
  have hr := target_regs_spec (pcie_mask_all_msi_vectors (pcie_set_msi_enb t false)) a d
  unfold pcie_set_msi_target
  refine ⟨M, ?_, hMev, ?_, ?_, ?_, ?_, ?_, ?_, ?_, ?_, ?_, ?_⟩
  · rw [hr.1, hM, he.1]
    have h64 : (pcie_mask_all_msi_vectors (pcie_set_msi_enb t false)).dev.msi.is64bit
        = t.dev.msi.is64bit := by
      rw [hM64, he.2.2.2.2.2.2.1]
    rw [h64]
  · intro hsup i hi
    refine hMmem ?_ i ?_
    · rw [he.2.2.2.2.2.2.2.2.1]
      exact hsup
    · rw [he.2.2.2.1]
      exact hi
  · intro hmech i hi
    have hs : (slotAt (pcie_mask_all_msi_vectors (pcie_set_msi_enb t false)) i).masked
        = true := by
      refine hMsl ?_ i ?_
      · rw [he.2.2.2.2.2.2.2.2.1, he.2.2.2.2.2.1]
        exact hmech
      · rw [he.2.2.2.1]
        exact hi
    show ((pcie_set_msi_target_regs (pcie_mask_all_msi_vectors
      (pcie_set_msi_enb t false)) a d).dev.handlers.getD i {}).masked = true
    rw [hr.2.2.2.1]
    exact hs
  · intro hp
    rw [hr.2.2.2.2.2.1]
    refine hMpvm ?_
    rw [he.2.2.2.2.2.1]
    exact hp
  · rw [hr.2.1, hMcfg, he.2.1]
  · rw [hr.2.2.1, hMcfg, he.2.2.1]
  · show (pcie_set_msi_target_regs (pcie_mask_all_msi_vectors
      (pcie_set_msi_enb t false)) a d).dev.handlers.length = t.dev.handlers.length
    rw [hr.2.2.2.1, hMlen, he.2.2.2.1]
  · rw [hr.2.2.2.2.1, hMmode, he.2.2.2.2.1]
  · rw [hr.2.2.2.2.2.2.2.1, hMplat, he.2.2.2.2.2.2.2.2.1]
  · rw [hr.2.2.2.2.2.2.2.2, hMph, he.2.2.2.2.2.2.2.2.2.1]
  · rw [hr.2.2.2.2.2.2.1, hMblk, he.2.2.2.2.2.2.2.1]

/-- When a single slot is requested, or the heap allocation succeeds, the
handler table becomes the `requested_irqs` zeroed slots with their per-slot
irq ids (the singleton case coincides with the one-element table). -/
theorem alloc_ok (allocOk : Bool) (t : Sys) (n : Nat) (h2 : n = 1 ∨ allocOk = true) :
    pcie_alloc_irq_handlers allocOk t n =
      (.NO_ERROR,
       { t with dev.handlers := (List.range n).map (fun i => { pci_irq_id := i }) }) := by
  unfold pcie_alloc_irq_handlers
  by_cases h1 : n = 1
  · subst h1
    rw [if_pos rfl]
    have hr : (List.range 1).map (fun i => ({ pci_irq_id := i } : pcie_irq_handler_state_t))
        = [{ pci_irq_id := 0 }] := rfl
    rw [hr]
  · rw [if_neg h1]
    rcases h2 with h2 | h2
    · exact absurd h2 h1
    · rw [if_neg (by simp [h2])]

theorem set_mme_projs (t : Sys) (n : Nat) :
    (pcie_set_msi_multi_message_enb t n).trace
      = t.trace ++ [Ev.writeMme (log2_uint_ceil n)] ∧
    (pcie_set_msi_multi_message_enb t n).dev.msi.cfg.mme = log2_uint_ceil n ∧
    (pcie_set_msi_multi_message_enb t n).dev.msi.cfg.enb = t.dev.msi.cfg.enb ∧
    (pcie_set_msi_multi_message_enb t n).dev.handlers = t.dev.handlers ∧
    (pcie_set_msi_multi_message_enb t n).dev.mode = t.dev.mode ∧
    (pcie_set_msi_multi_message_enb t n).dev.msi.pvmMask = t.dev.msi.pvmMask ∧
    (pcie_set_msi_multi_message_enb t n).dev.msi.irq_block = t.dev.msi.irq_block ∧
    (pcie_set_msi_multi_message_enb t n).plat = t.plat ∧
    (pcie_set_msi_multi_message_enb t n).platHandler = t.platHandler :=
  ⟨rfl, rfl, rfl, rfl, rfl, rfl, rfl, rfl, rfl⟩

/-- The programming sequence of the body of a successful enter-MSI, over an
arbitrary pre-state whose handler table has n slots: target programming
(ENABLE clear, mask writes, address, data), MME write, per-slot handler
registration, ENABLE set, and the resulting field values. -/
theorem msi_program_spec (B : Sys) (n a d : Nat)
    (hBlen : B.dev.handlers.length = n) :
    (∃ M, ((pcie_set_msi_enb
          (List.foldl pcie_msi_reg_step
            (pcie_set_msi_multi_message_enb (pcie_set_msi_target B a d) n)
            (List.range ((pcie_set_msi_multi_message_enb
              (pcie_set_msi_target B a d) n).dev.handlers.length)))
          true).trace
        = B.trace ++ [Ev.writeEnb false] ++ M ++ [Ev.writeAddr (a % 2 ^ 32)]
          ++ (if B.dev.msi.is64bit = true then
                [Ev.writeAddrUpper (a / 2 ^ 32), Ev.writeData64 (d % 2 ^ 16)]
              else [Ev.writeData32 (d % 2 ^ 16)])
          ++ [Ev.writeMme (log2_uint_ceil n)]
          ++ (List.range n).map (fun i => Ev.regMsiHandler i true)
          ++ [Ev.writeEnb true]) ∧
      (∀ e ∈ M, (∃ v, e = Ev.writePvmReg v) ∨ ∃ j, e = Ev.platMaskMsi j true) ∧
      (B.plat.supports_msi_masking = true →
        ∀ i, i < n → Ev.platMaskMsi i true ∈ M)) ∧
    (pcie_set_msi_enb
        (List.foldl pcie_msi_reg_step
          (pcie_set_msi_multi_message_enb (pcie_set_msi_target B a d) n)
          (List.range ((pcie_set_msi_multi_message_enb
            (pcie_set_msi_target B a d) n).dev.handlers.length)))
        true).dev.mode = B.dev.mode ∧
    (pcie_set_msi_enb
        (List.foldl pcie_msi_reg_step
          (pcie_set_msi_multi_message_enb (pcie_set_msi_target B a d) n)
          (List.range ((pcie_set_msi_multi_message_enb
            (pcie_set_msi_target B a d) n).dev.handlers.length)))
        true).dev.handlers.length = n ∧
    (pcie_set_msi_enb
        (List.foldl pcie_msi_reg_step
          (pcie_set_msi_multi_message_enb (pcie_set_msi_target B a d) n)
          (List.range ((pcie_set_msi_multi_message_enb
            (pcie_set_msi_target B a d) n).dev.handlers.length)))
        true).dev.msi.cfg.enb = true ∧
    (pcie_set_msi_enb
        (List.foldl pcie_msi_reg_step
          (pcie_set_msi_multi_message_enb (pcie_set_msi_target B a d) n)
          (List.range ((pcie_set_msi_multi_message_enb
            (pcie_set_msi_target B a d) n).dev.handlers.length)))
        true).dev.msi.cfg.mme = log2_uint_ceil n ∧
    ((B.plat.supports_msi_masking || B.dev.msi.hasPvm) = true →
      ∀ i, i < n →
        (slotAt (pcie_set_msi_enb
          (List.foldl pcie_msi_reg_step
            (pcie_set_msi_multi_message_enb (pcie_set_msi_target B a d) n)
            (List.range ((pcie_set_msi_multi_message_enb
              (pcie_set_msi_target B a d) n).dev.handlers.length)))
          true) i).masked = true) ∧
    (B.dev.msi.hasPvm = true →
      (pcie_set_msi_enb
        (List.foldl pcie_msi_reg_step
          (pcie_set_msi_multi_message_enb (pcie_set_msi_target B a d) n)
          (List.range ((pcie_set_msi_multi_message_enb
            (pcie_set_msi_target B a d) n).dev.handlers.length)))
        true).dev.msi.pvmMask = 0xFFFFFFFF) ∧
    (∀ i, i < n →
      (pcie_set_msi_enb
        (List.foldl pcie_msi_reg_step
          (pcie_set_msi_multi_message_enb (pcie_set_msi_target B a d) n)
          (List.range ((pcie_set_msi_multi_message_enb
            (pcie_set_msi_target B a d) n).dev.handlers.length)))
        true).platHandler i = true) ∧
    (pcie_set_msi_enb
        (List.foldl pcie_msi_reg_step
          (pcie_set_msi_multi_message_enb (pcie_set_msi_target B a d) n)
          (List.range ((pcie_set_msi_multi_message_enb
            (pcie_set_msi_target B a d) n).dev.handlers.length)))
        true).dev.msi.irq_block = B.dev.msi.irq_block := by
  obtain ⟨M, hTtr, hTev, hTmem, hTsl, hTpvm, hTenb, hTmme, hTlen, hTmode,
    hTplat, hTph, hTblk⟩ := set_msi_target_spec B a d
  have hD := set_mme_projs (pcie_set_msi_target B a d) n
  have hlenD : (pcie_set_msi_multi_message_enb (pcie_set_msi_target B a d)
      n).dev.handlers.length = n := by
    rw [hD.2.2.2.1]
    rw [show (pcie_set_msi_target B a d).dev.handlers.length
        = B.dev.handlers.length from hTlen, hBlen]
  rw [hlenD]
  have hE := reg_fold_projs (List.range n)
    (pcie_set_msi_multi_message_enb (pcie_set_msi_target B a d) n)
  have he2 := set_msi_enb_projs
    (List.foldl pcie_msi_reg_step
      (pcie_set_msi_multi_message_enb (pcie_set_msi_target B a d) n)
      (List.range n)) true
  refine ⟨⟨M, ?_, hTev, ?_⟩, ?_, ?_, he2.2.1, ?_, ?_, ?_, ?_, ?_⟩
  · rw [he2.1, hE.2.2.2, hD.1, hTtr]
  · intro hsup i hi
    exact hTmem hsup i (by rw [hBlen]; exact hi)
  · rw [he2.2.2.2.2.1, hE.1, hD.2.2.2.2.1, hTmode]
  · show (pcie_set_msi_enb _ true).dev.handlers.length = n
    rw [he2.2.2.2.1, hE.1, hD.2.2.2.1]
    rw [show (pcie_set_msi_target B a d).dev.handlers.length
        = B.dev.handlers.length from hTlen, hBlen]
  · rw [he2.2.2.1, hE.1, hD.2.1]
  · intro hmech i hi
    show ((pcie_set_msi_enb _ true).dev.handlers.getD i {}).masked = true
    rw [he2.2.2.2.1, hE.1, hD.2.2.2.1]
    exact hTsl hmech i (by rw [hBlen]; exact hi)
  · intro hp
    rw [he2.2.2.2.2.2.2.2.2.2.2, hE.1, hD.2.2.2.2.2.1]
    exact hTpvm hp
  · intro i hi
    rw [he2.2.2.2.2.2.2.2.2.2.1]
    exact reg_fold_handler (List.range n) _ i (List.mem_range.2 hi)
  · rw [he2.2.2.2.2.2.2.2.1, hE.1, hD.2.2.2.2.2.2.1]
    exact hTblk

/-- C4 amended: on a successful `set_mode(MSI, n)` the MSI capability is
programmed strictly in this order: ENABLE cleared; only mask writes (PVM
when present, the platform mask primitive for every vector index below n
when supported); low 32 address bits; upper 32 bits iff the device is
64-bit capable; the 16-bit data at the offset of the chosen layout; the MME
field with ceil-log2 of n (a value bounded by 5); platform handlers
registered for each of the n handler-table vectors (not necessarily every
vector of the block); ENABLE set.  Afterwards the device is in MSI mode with
n slots, all masked when a mask mechanism exists. -/
theorem c4_amended (allocOk : Bool) (s : Sys) (n : Nat)
    (hplug : s.dev.plugged_in = true) (hdis : s.dev.disabled = false)
    (hmode : s.dev.mode = .DISABLED)
    (hh : s.dev.handlers = [])
    (hcfg : s.dev.msi.hasCfg = true) (hmsi : s.plat.supports_msi = true)
    (hn1 : 1 ≤ n) (hnm : n ≤ s.dev.msi.max_irqs) (hmax : s.dev.msi.max_irqs ≤ 32)
    (halloc : s.plat.alloc_res = .NO_ERROR)
    (hcalloc : n = 1 ∨ allocOk = true) :
    (pcie_set_irq_mode allocOk s .MSI n).1 = .NO_ERROR ∧
    log2_uint_ceil n ≤ 5 ∧
    (∃ M, ((pcie_set_irq_mode allocOk s .MSI n).2.trace
        = s.trace ++ [Ev.writeEnb false] ++ M
          ++ [Ev.writeAddr (s.plat.alloc_block.tgt_addr % 2 ^ 32)]
          ++ (if s.dev.msi.is64bit = true then
                [Ev.writeAddrUpper (s.plat.alloc_block.tgt_addr / 2 ^ 32),
                 Ev.writeData64 (s.plat.alloc_block.tgt_data % 2 ^ 16)]
              else [Ev.writeData32 (s.plat.alloc_block.tgt_data % 2 ^ 16)])
          ++ [Ev.writeMme (log2_uint_ceil n)]
          ++ (List.range n).map (fun i => Ev.regMsiHandler i true)
          ++ [Ev.writeEnb true]) ∧
      (∀ e ∈ M, (∃ v, e = Ev.writePvmReg v) ∨ ∃ j, e = Ev.platMaskMsi j true) ∧
      (s.plat.supports_msi_masking = true →
        ∀ i, i < n → Ev.platMaskMsi i true ∈ M)) ∧
    (pcie_set_irq_mode allocOk s .MSI n).2.dev.mode = .MSI ∧
    (pcie_set_irq_mode allocOk s .MSI n).2.dev.handlers.length = n ∧
    (pcie_set_irq_mode allocOk s .MSI n).2.dev.msi.cfg.enb = true ∧
    (pcie_set_irq_mode allocOk s .MSI n).2.dev.msi.cfg.mme = log2_uint_ceil n ∧
    ((s.plat.supports_msi_masking || s.dev.msi.hasPvm) = true →
      ∀ i, i < n →
        (slotAt (pcie_set_irq_mode allocOk s .MSI n).2 i).masked = true) ∧
    (s.dev.msi.hasPvm = true →
      (pcie_set_irq_mode allocOk s .MSI n).2.dev.msi.pvmMask = 0xFFFFFFFF) ∧
    (∀ i, i < n → (pcie_set_irq_mode allocOk s .MSI n).2.platHandler i = true) ∧
    (pcie_set_irq_mode allocOk s .MSI n).2.dev.msi.irq_block
      = { s.plat.alloc_block with allocated := true } := by
  have hlog : log2_uint_ceil n ≤ 5 := by
    have h32 : n ≤ 2 ^ 5 := by
      have : (2 : Nat) ^ 5 = 32 := by norm_num
      omega
    exact (Nat.le_pow_iff_clog_le (by norm_num)).1 h32
  have hstep : pcie_set_irq_mode allocOk s .MSI n = pcie_enter_msi_irq_mode allocOk s n := by
    unfold pcie_set_irq_mode pcie_set_irq_mode_internal
    rw [if_pos (Or.inr (by simp [hplug, hdis]))]
    rw [if_neg (by simp)]
    rw [if_neg (by omega)]
    rw [if_neg (by simp [hmode])]
  rw [hstep]
  unfold pcie_enter_msi_irq_mode
  rw [if_neg (by simp [hcfg, hmsi]; omega)]
  rw [if_neg (by simp [halloc])]
  dsimp only
  rw [alloc_ok allocOk _ n hcalloc]
  rw [if_neg (by simp)]
  dsimp only
  have HS := msi_program_spec
    { s with dev.mode := PcieIrqMode.MSI,
             dev.handlers := (List.range n).map (fun i => { pci_irq_id := i }),
             dev.msi.irq_block := { s.plat.alloc_block with allocated := true } }
    n s.plat.alloc_block.tgt_addr s.plat.alloc_block.tgt_data (by simp)
  exact ⟨rfl, hlog, HS.1, HS.2.1, HS.2.2.1, HS.2.2.2.1, HS.2.2.2.2.1,
    HS.2.2.2.2.2.1, HS.2.2.2.2.2.2.1, HS.2.2.2.2.2.2.2.1, HS.2.2.2.2.2.2.2.2⟩

/-- An MSI-capable DISABLED device (no PVM, no platform masking, 32-bit
layout) whose platform grants a block of 4 vectors. -/
def c4sys : Sys :=
  { dev := { msi := { hasCfg := true, max_irqs := 8 } },
    plat := { supports_msi_masking := false,
              alloc_block := { num_irq := 4, tgt_addr := 0xFEE00000, tgt_data := 0x41 } } }

/-- C4 counterexample: `set_mode(MSI, 3)` succeeds with a 4-vector block,
registers platform handlers for vectors 0..2 (the handler table), but emits
no registration for vector 3 of the block — handlers are not registered for
every vector of the block. -/
theorem c4_counterexample :
    (pcie_set_irq_mode true c4sys .MSI 3).1 = .NO_ERROR ∧
    c4sys.plat.alloc_block.num_irq = 4 ∧
    (pcie_set_irq_mode true c4sys .MSI 3).2.dev.msi.irq_block.num_irq = 4 ∧
    Ev.regMsiHandler 2 true ∈ (pcie_set_irq_mode true c4sys .MSI 3).2.trace ∧
    Ev.regMsiHandler 3 true ∉ (pcie_set_irq_mode true c4sys .MSI 3).2.trace := by
  decide

/-- C4 amended, witnessed at a concrete input. -/
theorem c4_amended_witness :
    (pcie_set_irq_mode true c4sys .MSI 3).1 = .NO_ERROR ∧
    log2_uint_ceil 3 ≤ 5 ∧
    (pcie_set_irq_mode true c4sys .MSI 3).2.dev.mode = .MSI ∧
    (pcie_set_irq_mode true c4sys .MSI 3).2.dev.handlers.length = 3 ∧
    (pcie_set_irq_mode true c4sys .MSI 3).2.dev.msi.cfg.enb = true ∧
    (pcie_set_irq_mode true c4sys .MSI 3).2.dev.msi.cfg.mme = log2_uint_ceil 3 := by
  have h := c4_amended true c4sys 3 rfl rfl rfl rfl rfl rfl (by decide) (by decide)
    (by decide) rfl (Or.inr rfl)
  exact ⟨h.1, h.2.1, h.2.2.2.1, h.2.2.2.2.1, h.2.2.2.2.2.1, h.2.2.2.2.2.2.1⟩

end Pcie
